import Mathlib

/-!
uvgRTP: UDP endpoint (`src/socket.cc`) and intercepting proxy (`examples/proxy.cc`)

A shallow embedding of the socket wrapper `kvz_rtp::socket` and of the proxy's
receive hook, with theorems about their return codes, out-parameters, the
messages handed to the operating system and the library calls they make.

Conventions of the embedding.

* C integers are `Int`/`Nat` with the narrowing conversions written out
  (`toInt32`, `toInt16`, `toUInt16`, `toUInt32`).
* A nullable pointer to a caller-owned `int` is `Option Int`: `none` is
  `nullptr`, `some v` a cell currently holding `v`; a function returns the cell
  as it is after the call.
* Data pointers (`uint8_t *`) are addresses (`Nat`); byte memory is a function
  `Nat → Nat`.
* The operating system is a function from the request made to the outcome it
  reports; every function returns the list of requests it made.
* Both preprocessor variants of `socket.cc` are embedded, selected by
  `Platform`.
* A failed `assert`, an out-of-bounds store to a member array or a null
  dereference has no defined result: the function returns `none`.
* Diagnostics (`LOG_ERROR`, `fprintf(stderr, ...)`, `win_get_last_error`) do
  not affect any result and are left out of the socket functions; the proxy's
  console output is part of its action list.
-/

set_option autoImplicit false

namespace kvz_rtp

/-! ## Machine integers -/

/-- Conversion to a 32-bit signed `int` (two's complement wrap-around). -/
def toInt32 (x : Int) : Int := (x + 2147483648) % 4294967296 - 2147483648

/-- Conversion to a 16-bit signed `short`. -/
def toInt16 (x : Int) : Int := (x + 32768) % 65536 - 32768

/-- Conversion to `uint16_t`. -/
def toUInt16 (x : Int) : Nat := (x % 65536).toNat

/-- Conversion to a 32-bit unsigned value (`unsigned`, `ULONG`, `DWORD`). -/
def toUInt32 (x : Int) : Nat := (x % 4294967296).toNat

/-! ## Return codes -/

/-- Modelled from the spec: the return-code enumeration `rtp_error_t`. The
`util.hh` under `src/` declares only the first five codes; `socket.cc` also
returns `RTP_SEND_ERROR` and `RTP_INTERRUPTED`, and the spec's error taxonomy
lists the remaining three. -/
inductive rtp_error_t
  | RTP_OK
  | RTP_GENERIC_ERROR
  | RTP_SOCKET_ERROR
  | RTP_BIND_ERROR
  | RTP_INVALID_VALUE
  | RTP_SEND_ERROR
  | RTP_INTERRUPTED
  | RTP_NOT_SUPPORTED
  | RTP_NOT_READY
  | RTP_EOF
  deriving DecidableEq, Repr

open rtp_error_t

/-! ## Platform, byte order and OS constants -/

/-- The two preprocessor variants of `socket.cc`: `#ifdef __linux__` and its
`#else` branch (Winsock). -/
inductive Platform
  | linux
  | windows
  deriving DecidableEq, Repr

/-- Byte order of the host. -/
inductive ByteOrder
  | little
  | big
  deriving DecidableEq, Repr

/-- Address family `AF_INET` of the system headers. -/
def AF_INET : Int := 2

/-- Linux `errno` value `EAGAIN` (equal to `EWOULDBLOCK`). -/
def EAGAIN : Int := 11

/-- Linux `errno` value `EINTR`. -/
def EINTR : Int := 4

/-- Linux `errno` value `ECONNREFUSED`. -/
def ECONNREFUSED : Int := 111

/-- Winsock `INVALID_SOCKET`, `(SOCKET)(~0)` on a 64-bit build. -/
def INVALID_SOCKET : Int := 18446744073709551615

/-- Size in bytes of `sockaddr_in`: family 2, port 2, address 4, padding 8. -/
def sizeof_sockaddr_in : Nat := 16

/-- Swap the two bytes of a 16-bit value. -/
def bswap16 (x : Nat) : Nat := (x % 256) * 256 + (x / 256) % 256

/-- Reverse the four bytes of a 32-bit value. -/
def bswap32 (x : Nat) : Nat :=
  (x % 256) * 16777216 + (x / 256 % 256) * 65536 + (x / 65536 % 256) * 256 + x / 16777216 % 256

/-- Host to network order, 16 bit. -/
def htons (bo : ByteOrder) (x : Nat) : Nat :=
  match bo with
  | ByteOrder.little => bswap16 (x % 65536)
  | ByteOrder.big => x % 65536

/-- Host to network order, 32 bit. -/
def htonl (bo : ByteOrder) (x : Nat) : Nat :=
  match bo with
  | ByteOrder.little => bswap32 (x % 4294967296)
  | ByteOrder.big => x % 4294967296

/-- Network to host order, 16 bit. -/
def ntohs (bo : ByteOrder) (x : Nat) : Nat := htons bo x

/-- Network to host order, 32 bit. -/
def ntohl (bo : ByteOrder) (x : Nat) : Nat := htonl bo x

/-- The two bytes, in memory order, of a 16-bit object holding `v`. -/
def objBytes16 (bo : ByteOrder) (v : Nat) : List Nat :=
  match bo with
  | ByteOrder.little => [v % 256, v / 256 % 256]
  | ByteOrder.big => [v / 256 % 256, v % 256]

/-- The four bytes, in memory order, of a 32-bit object holding `v`. -/
def objBytes32 (bo : ByteOrder) (v : Nat) : List Nat :=
  match bo with
  | ByteOrder.little => [v % 256, v / 256 % 256, v / 65536 % 256, v / 16777216 % 256]
  | ByteOrder.big => [v / 16777216 % 256, v / 65536 % 256, v / 256 % 256, v % 256]

/-! ## Addresses -/

/-- The IPv4 socket address `sockaddr_in`; `sin_port` and `sin_addr` are the
values the 16-bit and 32-bit members hold, `sin_zero` the eight padding bytes. -/
structure sockaddr_in where
  sin_family : Nat
  sin_port : Nat
  sin_addr : Nat
  sin_zero : List Nat
  deriving DecidableEq, Repr

/-- The object after `memset(&addr, 0, sizeof(addr))`. -/
def sockaddr_in.zeroed : sockaddr_in :=
  { sin_family := 0, sin_port := 0, sin_addr := 0, sin_zero := List.replicate 8 0 }

/-- Source `socket::create_sockaddr(short family, unsigned host, short port)`. -/
def create_sockaddr (bo : ByteOrder) (family : Int) (host : Nat) (port : Int) :
    Option sockaddr_in :=
  if family = AF_INET then
    let addr := sockaddr_in.zeroed
    let addr := { addr with sin_family := toUInt16 family }
    let addr := { addr with sin_port := htons bo (toUInt16 port) }
    let addr := { addr with sin_addr := htonl bo host }
    some addr
  else none

/-- Source `socket::create_sockaddr(short family, std::string host, short port)`.
The text-to-address conversion `inet_pton` belongs to the system library and is
a parameter: `some a` is the 32-bit object it stores on success, `none` a
failure, which leaves the zeroed address in place (its return value is not
inspected). -/
def create_sockaddr_str (bo : ByteOrder) (inet_pton : String → Option Nat)
    (family : Int) (host : String) (port : Int) : Option sockaddr_in :=
  if family = AF_INET then
    let addr := sockaddr_in.zeroed
    let addr := { addr with sin_family := toUInt16 family }
    let addr :=
      match inet_pton host with
      | some a => { addr with sin_addr := a % 4294967296 }
      | none => addr
    let addr := { addr with sin_port := htons bo (toUInt16 (toUInt16 port)) }
    some addr
  else none

/-! ## The operating system -/

/-- Scatter-gather element `struct iovec`. -/
structure iovec where
  iov_base : Nat
  iov_len : Nat
  deriving DecidableEq, Repr

/-- Winsock scatter-gather element `WSABUF`; `len` is a 32-bit `ULONG`. -/
structure WSABUF where
  len : Nat
  buf : Nat
  deriving DecidableEq, Repr

/-- A message as the kernel reads it from a `msghdr`: destination, the
`msg_iovlen` elements found at `msg_iov`, and the control buffer. -/
structure os_msg where
  name : Option sockaddr_in
  namelen : Nat
  iov : List iovec
  control : Nat
  controllen : Nat
  deriving DecidableEq, Repr

/-- A request made to the operating system, with the arguments passed. -/
inductive Syscall
  | socket (family type protocol : Int)
  | setsockopt (fd level optname : Int) (optval : Nat) (optlen : Nat)
  | bind (fd : Int) (addr : sockaddr_in) (addrlen : Nat)
  | sendto (fd : Int) (buf : Nat) (len : Nat) (flags : Int) (dest : sockaddr_in) (addrlen : Nat)
  | sendmmsg (fd : Int) (msgvec : List os_msg) (vlen : Nat) (flags : Int)
  | WSASendTo (fd : Int) (bufs : List WSABUF) (count : Nat) (flags : Int)
      (dest : sockaddr_in) (addrlen : Nat)
  | recvfrom (fd : Int) (buf : Nat) (len : Nat) (flags : Int) (wantSender : Bool)
      (addrlen : Option Nat)
  deriving DecidableEq, Repr

/-- What the operating system reports for a request: a failure with its error
number, or a success with its value (the new descriptor for `socket`, the
number of bytes transferred for the send and receive calls, unused for `bind`
and `setsockopt`). -/
inductive OsOutcome
  | failure (errno : Int)
  | success (value : Nat)
  deriving DecidableEq, Repr

/-- The operating system: the outcome it reports for each request. -/
abbrev OS := Syscall → OsOutcome

/-- The call reported failure. -/
def OsOutcome.failed : OsOutcome → Bool
  | OsOutcome.failure _ => true
  | OsOutcome.success _ => false

/-- The value of a success fits in an `int`: descriptors are `int`s, and the
kernel never transfers more than `INT_MAX` bytes in one call. -/
def OsOutcome.fitsInt : OsOutcome → Prop
  | OsOutcome.failure _ => True
  | OsOutcome.success v => v < 2147483648

instance (o : OsOutcome) : Decidable o.fitsInt := by
  cases o <;> unfold OsOutcome.fitsInt <;> infer_instance

/-- Return value of a POSIX call that yields a descriptor or a byte count
(`socket`, `sendto`, `recvfrom`): `-1` on error. -/
def OsOutcome.posixRet : OsOutcome → Int
  | OsOutcome.failure _ => -1
  | OsOutcome.success v => v

/-- Return value of a call that yields `0` on success and `-1`
(`SOCKET_ERROR`) on error: `bind`, `setsockopt`, `WSASendTo`. -/
def OsOutcome.statusRet : OsOutcome → Int
  | OsOutcome.failure _ => -1
  | OsOutcome.success _ => 0

/-- Return value of `sendmmsg` for a vector of one message: the number of
messages sent, or `-1` on error. -/
def OsOutcome.sendmmsgRet : OsOutcome → Int
  | OsOutcome.failure _ => -1
  | OsOutcome.success _ => 1

/-- Return value of the Winsock `socket`: the handle, or `INVALID_SOCKET`. -/
def OsOutcome.winsockRet : OsOutcome → Int
  | OsOutcome.failure _ => INVALID_SOCKET
  | OsOutcome.success v => v

/-- The thread error number, `errno`, after the call. It is only meaningful
after a failure. -/
def OsOutcome.errno : OsOutcome → Int
  | OsOutcome.failure e => e
  | OsOutcome.success _ => 0

/-- The byte count the call stores through its output argument
(`msg_len` of `sendmmsg`, `lpNumberOfBytesSent` of `WSASendTo`). -/
def OsOutcome.transferred : OsOutcome → Nat
  | OsOutcome.failure _ => 0
  | OsOutcome.success v => v

/-- The bytes of memory `mem` in the range `[base, base + len)`. -/
def readBytes (mem : Nat → Nat) (base len : Nat) : List Nat :=
  (List.range len).map (fun i => mem (base + i))

/-- The datagram the kernel assembles from a message: the bytes of its
scatter-gather elements, in order. -/
def os_msg.datagram (mem : Nat → Nat) (m : os_msg) : List Nat :=
  (m.iov.map (fun v => readBytes mem v.iov_base v.iov_len)).flatten

/-! ## The socket object -/

/-- Where `msg_iov` points. -/
inductive iov_ref
  | null
  | chunks
  deriving DecidableEq, Repr

/-- The members of `struct msghdr` that `socket.cc` sets. `msg_name` is the
address the pointer refers to. -/
structure msghdr where
  msg_name : Option sockaddr_in
  msg_namelen : Nat
  msg_iov : iov_ref
  msg_iovlen : Nat
  msg_control : Nat
  msg_controllen : Nat
  deriving DecidableEq, Repr

/-- The type `struct mmsghdr`. -/
structure mmsghdr where
  msg_hdr : msghdr
  msg_len : Nat
  deriving DecidableEq, Repr

/-- Modelled from the spec: the data members of `kvz_rtp::socket`. The class
declaration (`socket.hh`) is not among the sources; these are the members
`socket.cc` uses. `chunks_` (Linux) and `buffers_` (Winsock) are arrays of a
fixed capacity, the length of the list. -/
structure socket where
  socket_ : Int
  addr_ : sockaddr_in
  header_ : mmsghdr
  chunks_ : List iovec
  buffers_ : List WSABUF
  deriving DecidableEq, Repr

/-- The message the kernel reads through `header_`. -/
def socket.message (s : socket) : os_msg :=
  { name := s.header_.msg_hdr.msg_name
    namelen := s.header_.msg_hdr.msg_namelen
    iov :=
      match s.header_.msg_hdr.msg_iov with
      | iov_ref.null => []
      | iov_ref.chunks => s.chunks_.take s.header_.msg_hdr.msg_iovlen
    control := s.header_.msg_hdr.msg_control
    controllen := s.header_.msg_hdr.msg_controllen }

/-- Result of a set-up operation: return code, the object afterwards, the
requests made. -/
structure setup_result where
  code : rtp_error_t
  self : socket
  calls : List Syscall
  deriving DecidableEq, Repr

/-- Result of a send or receive: return code, the caller's `bytes_sent` /
`bytes_read` cell afterwards (`none` when the pointer was null), the object
afterwards, the requests made. -/
structure io_result where
  code : rtp_error_t
  bytes : Option Int
  self : socket
  calls : List Syscall
  deriving DecidableEq, Repr

/-- Source `socket::socket()`: it sets `socket_` to `-1`. The constructor leaves
the other members uninitialised; here they start zeroed, with scatter-gather
arrays of the given contents. -/
def socket.new (chunks : List iovec) (buffers : List WSABUF) : socket :=
  { socket_ := -1
    addr_ := sockaddr_in.zeroed
    header_ :=
      { msg_hdr :=
          { msg_name := none, msg_namelen := 0, msg_iov := iov_ref.null, msg_iovlen := 0,
            msg_control := 0, msg_controllen := 0 }
        msg_len := 0 }
    chunks_ := chunks
    buffers_ := buffers }

/-- Source `socket::init`. -/
def init (plat : Platform) (os : OS) (s : socket) (family type protocol : Int) :
    Option setup_result :=
  if family = AF_INET then
    let call := Syscall.socket family type protocol
    match plat with
    | Platform.windows =>
      let s1 := { s with socket_ := (os call).winsockRet }
      if s1.socket_ = INVALID_SOCKET then
        some { code := RTP_SOCKET_ERROR, self := s1, calls := [call] }
      else
        some { code := RTP_OK, self := s1, calls := [call] }
    | Platform.linux =>
      let s1 := { s with socket_ := (os call).posixRet }
      if s1.socket_ < 0 then
        some { code := RTP_SOCKET_ERROR, self := s1, calls := [call] }
      else
        some { code := RTP_OK, self := s1, calls := [call] }
  else none

/-- Source `socket::setsockopt`. -/
def setsockopt (os : OS) (s : socket) (level optname : Int) (optval : Nat) (optlen : Nat) :
    setup_result :=
  let call := Syscall.setsockopt s.socket_ level optname optval optlen
  if (os call).statusRet < 0 then
    { code := RTP_GENERIC_ERROR, self := s, calls := [call] }
  else
    { code := RTP_OK, self := s, calls := [call] }

/-- Source `socket::bind`. -/
def bind (bo : ByteOrder) (os : OS) (s : socket) (family : Int) (host : Nat) (port : Int) :
    Option setup_result :=
  if family = AF_INET then
    match create_sockaddr bo family host port with
    | none => none
    | some addr =>
      let call := Syscall.bind s.socket_ addr sizeof_sockaddr_in
      if (os call).statusRet < 0 then
        some { code := RTP_BIND_ERROR, self := s, calls := [call] }
      else
        some { code := RTP_OK, self := s, calls := [call] }
  else none

/-- Source `socket::set_sockaddr`. -/
def set_sockaddr (s : socket) (addr : sockaddr_in) : socket :=
  { s with addr_ := addr }

/-- Source `socket::get_raw_socket`. -/
def get_raw_socket (s : socket) : Int := s.socket_

/-! ## Sending -/

/-- Modelled from the spec: the helper `set_bytes(int *ptr, int nbytes)` that
`__sendtov` calls is declared outside `socket.cc`. It is the null-checked store
`if (ptr) *ptr = nbytes` that `__sendto` writes inline for the same
out-parameter. -/
def set_bytes (ptr : Option Int) (nbytes : Int) : Option Int :=
  match ptr with
  | none => none
  | some _ => some nbytes

/-- Source `socket::__sendto`. `nsend0` is the indeterminate initial value of
the local `int nsend`, which the Winsock variant never assigns. -/
def __sendto (plat : Platform) (os : OS) (nsend0 : Int) (s : socket) (addr : sockaddr_in)
    (buf : Nat) (buf_len : Nat) (flags : Int) (bytes_sent : Option Int) : io_result :=
  match plat with
  | Platform.linux =>
    let call := Syscall.sendto s.socket_ buf buf_len flags addr sizeof_sockaddr_in
    let nsend := toInt32 (os call).posixRet
    if nsend = -1 then
      { code := RTP_SEND_ERROR
        bytes := match bytes_sent with
          | some _ => some (-1)
          | none => none
        self := s, calls := [call] }
    else
      { code := RTP_OK
        bytes := match bytes_sent with
          | some _ => some nsend
          | none => none
        self := s, calls := [call] }
  | Platform.windows =>
    let nsend := nsend0
    let data_buf : WSABUF := { len := toUInt32 buf_len, buf := buf }
    let call := Syscall.WSASendTo s.socket_ [data_buf] 1 flags addr sizeof_sockaddr_in
    if (os call).statusRet = -1 then
      { code := RTP_SEND_ERROR
        bytes := match bytes_sent with
          | some _ => some (-1)
          | none => none
        self := s, calls := [call] }
    else
      { code := RTP_OK
        bytes := match bytes_sent with
          | some _ => some nsend
          | none => none
        self := s, calls := [call] }

/-- The loop of the Linux `__sendtov`, from index `i` on: store each remaining
buffer, a pair (length, pointer), in `chunks_[i]` and add its length to the
`int sent_bytes`. A store past the end of `chunks_` is undefined. -/
def sendtov_fill : List (Nat × Nat) → Nat → List iovec → Int → Option (List iovec × Int)
  | [], _, chunks, sent_bytes => some (chunks, sent_bytes)
  | b :: rest, i, chunks, sent_bytes =>
    if i < chunks.length then
      sendtov_fill rest (i + 1) (chunks.set i { iov_base := b.2, iov_len := b.1 })
        (toInt32 (sent_bytes + b.1))
    else none

/-- The loop of the Winsock `__sendtov`, from index `i` on: store each remaining
buffer in `buffers_[i]`; `len` is a 32-bit `ULONG`. -/
def sendtov_fill_wsa : List (Nat × Nat) → Nat → List WSABUF → Option (List WSABUF)
  | [], _, bufs => some bufs
  | b :: rest, i, bufs =>
    if i < bufs.length then
      sendtov_fill_wsa rest (i + 1) (bufs.set i { len := toUInt32 b.1, buf := b.2 })
    else none

/-- Source `socket::__sendtov`. -/
def __sendtov (plat : Platform) (os : OS) (s : socket) (addr : sockaddr_in)
    (buffers : List (Nat × Nat)) (flags : Int) (bytes_sent : Option Int) : Option io_result :=
  match plat with
  | Platform.linux =>
    match sendtov_fill buffers 0 s.chunks_ 0 with
    | none => none
    | some (chunks, sent_bytes) =>
      let hdr : msghdr :=
        { msg_name := some addr
          msg_namelen := sizeof_sockaddr_in
          msg_iov := iov_ref.chunks
          msg_iovlen := buffers.length
          msg_control := 0
          msg_controllen := 0 }
      let s1 := { s with chunks_ := chunks, header_ := { s.header_ with msg_hdr := hdr } }
      let call := Syscall.sendmmsg s1.socket_ [s1.message] 1 flags
      if (os call).sendmmsgRet < 0 then
        some { code := RTP_SEND_ERROR, bytes := set_bytes bytes_sent (-1), self := s1,
               calls := [call] }
      else
        let s2 := { s1 with header_ := { s1.header_ with msg_len := (os call).transferred } }
        some { code := RTP_OK, bytes := set_bytes bytes_sent sent_bytes, self := s2,
               calls := [call] }
  | Platform.windows =>
    match sendtov_fill_wsa buffers 0 s.buffers_ with
    | none => none
    | some bufs =>
      let s1 := { s with buffers_ := bufs }
      let call :=
        Syscall.WSASendTo s1.socket_ (s1.buffers_.take buffers.length) buffers.length flags addr
          sizeof_sockaddr_in
      if (os call).statusRet = -1 then
        some { code := RTP_SEND_ERROR, bytes := set_bytes bytes_sent (-1), self := s1,
               calls := [call] }
      else
        let sent_bytes := toUInt32 (os call).transferred
        some { code := RTP_OK, bytes := set_bytes bytes_sent (toInt32 sent_bytes), self := s1,
               calls := [call] }

/-- Source `socket::__recvfrom`. `sender` is the caller's address object when
the pointer is non-null. In the `EAGAIN` branch the statement `bytes_read = 0`
assigns the local pointer, so the caller's cell keeps its value. -/
def __recvfrom (plat : Platform) (os : OS) (s : socket) (buf : Nat) (buf_len : Nat)
    (flags : Int) (sender : Option sockaddr_in) (bytes_read : Option Int) : io_result :=
  let len : Nat := sizeof_sockaddr_in
  let len_ptr : Option Nat := if sender.isSome then some len else none
  let call := Syscall.recvfrom s.socket_ buf buf_len flags sender.isSome len_ptr
  let ret := toInt32 (os call).posixRet
  match plat with
  | Platform.linux =>
    if ret = -1 then
      if (os call).errno = EAGAIN then
        { code := RTP_INTERRUPTED, bytes := bytes_read, self := s, calls := [call] }
      else
        { code := RTP_GENERIC_ERROR
          bytes := match bytes_read with
            | some _ => some (-1)
            | none => none
          self := s, calls := [call] }
    else
      { code := RTP_OK
        bytes := match bytes_read with
          | some _ => some ret
          | none => none
        self := s, calls := [call] }
  | Platform.windows =>
    if ret = -1 then
      { code := RTP_GENERIC_ERROR
        bytes := match bytes_read with
          | some _ => some (-1)
          | none => none
        self := s, calls := [call] }
    else
      { code := RTP_OK
        bytes := match bytes_read with
          | some _ => some ret
          | none => none
        self := s, calls := [call] }

/-- Source `socket::recvfrom(uint8_t *, size_t, int, sockaddr_in *, int *)`. -/
def recvfrom_sender_bytes (plat : Platform) (os : OS) (s : socket) (buf : Nat) (buf_len : Nat)
    (flags : Int) (sender : Option sockaddr_in) (bytes_read : Option Int) : io_result :=
  __recvfrom plat os s buf buf_len flags sender bytes_read

/-- Source `socket::recvfrom(uint8_t *, size_t, int, int *)`. -/
def recvfrom_bytes (plat : Platform) (os : OS) (s : socket) (buf : Nat) (buf_len : Nat)
    (flags : Int) (bytes_read : Option Int) : io_result :=
  __recvfrom plat os s buf buf_len flags none bytes_read

/-- Source `socket::recvfrom(uint8_t *, size_t, int, sockaddr_in *)`. -/
def recvfrom_sender (plat : Platform) (os : OS) (s : socket) (buf : Nat) (buf_len : Nat)
    (flags : Int) (sender : Option sockaddr_in) : io_result :=
  __recvfrom plat os s buf buf_len flags sender none

/-- Source `socket::recvfrom(uint8_t *, size_t, int)`. -/
def recvfrom_plain (plat : Platform) (os : OS) (s : socket) (buf : Nat) (buf_len : Nat)
    (flags : Int) : io_result :=
  __recvfrom plat os s buf buf_len flags none none

end kvz_rtp

namespace proxy

open kvz_rtp

/-! ## The proxy example (`examples/proxy.cc`) -/

/-- Modelled from the spec: the `push_frame` flags of the library (its header
is not among the sources). `RTP_NO_H26X_SCL` tells the codec that the buffer is
one NAL unit and is not to be scanned for start codes. -/
inductive rtp_flags_t
  | RTP_NO_FLAGS
  | RTP_NO_H26X_SCL
  deriving DecidableEq, Repr

/-- Modelled from the spec: the members of the library's inbound frame
`uvgrtp::frame::rtp_frame` that the proxy reads: the payload pointer and the
payload length. -/
structure rtp_frame where
  payload : Nat
  payload_len : Nat
  deriving DecidableEq, Repr

/-- Source `struct uvgrtpCtx`: the four pointers, `none` for `nullptr`,
`some h` for the object with handle `h`. -/
structure uvgrtpCtx where
  sndSession : Option Nat
  rcvSession : Option Nat
  sndStream : Option Nat
  rcvStream : Option Nat
  deriving DecidableEq, Repr

/-- An observable action of the hook: a line on `std::cout`, a call of
`media_stream::push_frame` on a stream, a line on `std::cerr`, a call of
`uvgrtp::frame::dealloc_frame`. -/
inductive Event
  | cout (text : String)
  | push_frame (stream : Nat) (data : Nat) (data_len : Nat) (flags : rtp_flags_t)
  | cerr (text : String)
  | dealloc_frame (frame : rtp_frame)
  deriving DecidableEq, Repr

/-- The environment of the hook, as a function of the actions performed so
far: the code `push_frame` returns for a call, and the byte memory. -/
structure World where
  push_frame : List Event → Nat → Nat → Nat → rtp_flags_t → rtp_error_t
  mem : List Event → Nat → Nat

/-- Source `naluType`. -/
def naluType (nal_unit_type : Nat) : String :=
  match nal_unit_type with
  | 1 => "Slice"
  | 5 => "IDR slice"
  | 6 => "SEI"
  | 7 => "SPS"
  | 8 => "PPS"
  | 9 => "AUD"
  | n => toString n

/-- Source `rtp_receive_hook`. `past` are the actions performed before the
call; the result is the list of actions of this call, in order. -/
def rtp_receive_hook (w : World) (past : List Event) (arg : uvgrtpCtx)
    (nalu : Option rtp_frame) : Option (List Event) :=
  let ctx := arg
  match nalu with
  | some f =>
    if f.payload_len > 0 then
      let line := Event.cout
        ("NALU type " ++ naluType ((w.mem past f.payload % 256) &&& 0x1f) ++ ", " ++
          toString f.payload_len ++ " bytes\n")
      match ctx.sndStream with
      | none => none
      | some stream =>
        let call := Event.push_frame stream f.payload f.payload_len rtp_flags_t.RTP_NO_H26X_SCL
        if w.push_frame (past ++ [line]) stream f.payload f.payload_len
            rtp_flags_t.RTP_NO_H26X_SCL ≠ rtp_error_t.RTP_OK then
          some [line, call, Event.cerr "Failed to send frame\n", Event.dealloc_frame f]
        else
          some [line, call, Event.dealloc_frame f]
    else
      some [Event.dealloc_frame f]
  | none => some []

/-- Modelled from the spec: the library's receiver loop (not among the
sources) invokes the installed hook once for each frame it delivers, in
delivery order. `deliver` runs the hook over the delivered frames and returns
the actions performed, in order. -/
def deliver (w : World) (arg : uvgrtpCtx) : List (Option rtp_frame) → List Event →
    Option (List Event)
  | [], _ => some []
  | nalu :: rest, past =>
    match rtp_receive_hook w past arg nalu with
    | none => none
    | some evs =>
      match deliver w arg rest (past ++ evs) with
      | none => none
      | some more => some (evs ++ more)

/-- The `push_frame` calls among a list of actions. -/
def pushes (evs : List Event) : List Event :=
  evs.filter (fun e => match e with
    | Event.push_frame _ _ _ _ => true
    | _ => false)

/-- The frames passed to `dealloc_frame` among a list of actions. -/
def deallocs (evs : List Event) : List rtp_frame :=
  evs.filterMap (fun e => match e with
    | Event.dealloc_frame f => some f
    | _ => none)

/-- The delivered frames that are non-null and have a non-empty payload. -/
def forwarded (frames : List (Option rtp_frame)) : List rtp_frame :=
  frames.filterMap (fun o => match o with
    | some f => if f.payload_len > 0 then some f else none
    | none => none)

end proxy

namespace kvz_rtp

/-! ## Concrete inputs used in the witnesses -/

/-- An operating system that reports four bytes transferred for every call. -/
def sample_os : OS := fun _ => OsOutcome.success 4

/-- An operating system that reports an expired deadline (`EAGAIN`) for every
call. -/
def timeout_os : OS := fun _ => OsOutcome.failure EAGAIN

/-- A fresh socket object whose scatter-gather arrays have four elements. -/
def sample_socket : socket :=
  socket.new (List.replicate 4 { iov_base := 0, iov_len := 0 })
    (List.replicate 4 { len := 0, buf := 0 })

/-- Two buffers of six and four bytes. -/
def sample_buffers : List (Nat × Nat) := [(6, 4096), (4, 8192)]

end kvz_rtp

namespace proxy

/-- A library whose `push_frame` always returns `RTP_OK`, over a memory in
which every byte is `0x65` (the header of an IDR slice). -/
def sample_world : World :=
  { push_frame := fun _ _ _ _ _ => kvz_rtp.rtp_error_t.RTP_OK
    mem := fun _ _ => 101 }

/-- A library whose `push_frame` always returns `RTP_SEND_ERROR`. -/
def failing_world : World :=
  { push_frame := fun _ _ _ _ _ => kvz_rtp.rtp_error_t.RTP_SEND_ERROR
    mem := fun _ _ => 101 }

/-- A proxy context whose four pointers are non-null. -/
def sample_ctx : uvgrtpCtx :=
  { sndSession := some 1, rcvSession := some 2, sndStream := some 3, rcvStream := some 4 }

/-- A delivered frame with a payload of 40 bytes. -/
def sample_frame : rtp_frame := { payload := 4096, payload_len := 40 }

end proxy

namespace kvz_rtp

open rtp_error_t

/-! ## Arithmetic of the integer conversions -/

theorem toUInt16_toInt16 (p : Nat) (hp : p ≤ 65535) : toUInt16 (toInt16 p) = p := by
  unfold toUInt16 toInt16
  omega

theorem toInt32_add (a b : Int) : toInt32 (toInt32 a + b) = toInt32 (a + b) := by
  unfold toInt32
  omega

theorem toInt32_of_fits (v : Nat) (h : v < 2147483648) : toInt32 v = v := by
  unfold toInt32
  omega

theorem toInt32_toUInt32 (v : Nat) (h : v < 2147483648) : toInt32 (toUInt32 v) = v := by
  unfold toInt32 toUInt32
  omega

theorem bswap16_bytes (a b : Nat) (ha : a < 256) (hb : b < 256) :
    bswap16 (a * 256 + b) = b * 256 + a := by
  unfold bswap16
  omega

theorem bswap32_bytes (a b c d : Nat) (ha : a < 256) (hb : b < 256) (hc : c < 256)
    (hd : d < 256) :
    bswap32 (a * 16777216 + b * 65536 + c * 256 + d) =
      d * 16777216 + c * 65536 + b * 256 + a := by
  unfold bswap32
  omega

theorem bswap16_split (x : Nat) (h : x < 65536) :
    bswap16 x = (x % 256) * 256 + x / 256 := by
  have hx : x = (x / 256) * 256 + x % 256 := by omega
  have ha : x / 256 < 256 := by omega
  have hb : x % 256 < 256 := by omega
  generalize x / 256 = a at hx ha
  generalize x % 256 = b at hx hb
  subst hx
  exact bswap16_bytes a b ha hb

theorem byte_decomp32 (x : Nat) (h : x < 4294967296) :
    ∃ a b c d, a < 256 ∧ b < 256 ∧ c < 256 ∧ d < 256 ∧
      x = a * 16777216 + b * 65536 + c * 256 + d :=
  ⟨x / 16777216, x / 65536 % 256, x / 256 % 256, x % 256,
    by omega, by omega, by omega, by omega, by omega⟩

theorem ntohs_htons (bo : ByteOrder) (p : Nat) (hp : p < 65536) : ntohs bo (htons bo p) = p := by
  cases bo
  · simp only [ntohs, htons]
    have h1 : p % 65536 = p := by omega
    rw [h1, bswap16_split p hp]
    have ha : p / 256 < 256 := by omega
    have hb : p % 256 < 256 := by omega
    have h2 : (p % 256 * 256 + p / 256) % 65536 = p % 256 * 256 + p / 256 := by omega
    rw [h2, bswap16_bytes (p % 256) (p / 256) hb ha]
    omega
  · simp only [ntohs, htons]
    omega

theorem ntohl_htonl (bo : ByteOrder) (h : Nat) (hh : h < 4294967296) :
    ntohl bo (htonl bo h) = h := by
  cases bo
  · obtain ⟨a, b, c, d, ha, hb, hc, hd, rfl⟩ := byte_decomp32 h hh
    simp only [ntohl, htonl]
    have h1 : (a * 16777216 + b * 65536 + c * 256 + d) % 4294967296
        = a * 16777216 + b * 65536 + c * 256 + d := by omega
    rw [h1, bswap32_bytes a b c d ha hb hc hd]
    have h2 : (d * 16777216 + c * 65536 + b * 256 + a) % 4294967296
        = d * 16777216 + c * 65536 + b * 256 + a := by omega
    rw [h2, bswap32_bytes d c b a hd hc hb ha]
  · simp only [ntohl, htonl]
    omega

theorem objBytes16_htons (bo : ByteOrder) (p : Nat) (hp : p < 65536) :
    objBytes16 bo (htons bo p) = [p / 256, p % 256] := by
  cases bo
  · simp only [objBytes16, htons]
    have h1 : p % 65536 = p := by omega
    rw [h1, bswap16_split p hp]
    have e1 : (p % 256 * 256 + p / 256) % 256 = p / 256 := by omega
    have e2 : (p % 256 * 256 + p / 256) / 256 % 256 = p % 256 := by omega
    rw [e1, e2]
  · simp only [objBytes16, htons]
    have e1 : p % 65536 / 256 % 256 = p / 256 := by omega
    have e2 : p % 65536 % 256 = p % 256 := by omega
    rw [e1, e2]

theorem bytes32_split (a b c d : Nat) (ha : a < 256) (hb : b < 256) (hc : c < 256)
    (hd : d < 256) :
    (a * 16777216 + b * 65536 + c * 256 + d) / 16777216 % 256 = a ∧
    (a * 16777216 + b * 65536 + c * 256 + d) / 16777216 = a ∧
    (a * 16777216 + b * 65536 + c * 256 + d) / 65536 % 256 = b ∧
    (a * 16777216 + b * 65536 + c * 256 + d) / 256 % 256 = c ∧
    (a * 16777216 + b * 65536 + c * 256 + d) % 256 = d ∧
    (a * 16777216 + b * 65536 + c * 256 + d) % 4294967296
      = a * 16777216 + b * 65536 + c * 256 + d := by
  refine ⟨?_, ?_, ?_, ?_, ?_, ?_⟩ <;> omega

theorem objBytes32_htonl (bo : ByteOrder) (h : Nat) (hh : h < 4294967296) :
    objBytes32 bo (htonl bo h) = [h / 16777216, h / 65536 % 256, h / 256 % 256, h % 256] := by
  obtain ⟨a, b, c, d, ha, hb, hc, hd, rfl⟩ := byte_decomp32 h hh
  obtain ⟨r0, r1, r2, r3, r4, r5⟩ := bytes32_split a b c d ha hb hc hd
  obtain ⟨e0, _, e2, e3, e4, _⟩ := bytes32_split d c b a hd hc hb ha
  cases bo
  · simp only [objBytes32, htonl]
    rw [r5, bswap32_bytes a b c d ha hb hc hd, e0, e2, e3, e4, r1, r2, r3, r4]
  · simp only [objBytes32, htonl]
    rw [r5, r0, r1, r2, r3, r4]

/-! ## Address construction -/

/-- Claim C10. For every 32-bit host value `h`, every port `p ≤ 65535` passed
through the `short port` parameter (as `toInt16 p`) and either host byte order,
`create_sockaddr(AF_INET, h, p)` returns an address whose family is `AF_INET`,
whose padding bytes are zero, whose port and host members hold `p` and `h` in
network byte order (most significant byte first in memory), and from which
`ntohs` and `ntohl` give back exactly `p` and `h`; `bind` hands that same
address to the OS, and the string overload stores the port the same way. -/
theorem create_sockaddr_round_trip (bo : ByteOrder) (h p : Nat)
    (hh : h < 4294967296) (hp : p ≤ 65535) :
    ∃ addr, create_sockaddr bo AF_INET h (toInt16 p) = some addr ∧
      (addr.sin_family : Int) = AF_INET ∧
      addr.sin_zero = [0, 0, 0, 0, 0, 0, 0, 0] ∧
      objBytes16 bo addr.sin_port = [p / 256, p % 256] ∧
      objBytes32 bo addr.sin_addr = [h / 16777216, h / 65536 % 256, h / 256 % 256, h % 256] ∧
      ntohs bo addr.sin_port = p ∧
      ntohl bo addr.sin_addr = h ∧
      (∀ (os : OS) (s : socket), ∃ r, bind bo os s AF_INET h (toInt16 p) = some r ∧
        r.calls = [Syscall.bind s.socket_ addr sizeof_sockaddr_in]) ∧
      (∀ (inet_pton : String → Option Nat) (host : String),
        ∃ a, create_sockaddr_str bo inet_pton AF_INET host (toInt16 p) = some a ∧
          ntohs bo a.sin_port = p ∧ objBytes16 bo a.sin_port = [p / 256, p % 256]) := by
  have hp16 : p < 65536 := by omega
  have hport : toUInt16 (toInt16 p) = p := toUInt16_toInt16 p hp
  refine ⟨{ sin_family := toUInt16 AF_INET, sin_port := htons bo (toUInt16 (toInt16 p)),
             sin_addr := htonl bo h, sin_zero := sockaddr_in.zeroed.sin_zero },
    by simp [create_sockaddr], ?_, ?_, ?_, ?_, ?_, ?_, ?_, ?_⟩
  · simp [toUInt16, AF_INET]
  · simp [sockaddr_in.zeroed]
  · simp only [hport]
    exact objBytes16_htons bo p hp16
  · exact objBytes32_htonl bo h hh
  · simp only [hport]
    exact ntohs_htons bo p hp16
  · exact ntohl_htonl bo h hh
  · intro os s
    simp only [bind, create_sockaddr, if_true]
    split <;> exact ⟨_, rfl, rfl⟩
  · intro inet_pton host
    have hstr : ∃ a, create_sockaddr_str bo inet_pton AF_INET host (toInt16 p) = some a ∧
        a.sin_port = htons bo p := by
      have hcast : toUInt16 ((toUInt16 (toInt16 p) : Nat) : Int) = p := by
        rw [hport]
        unfold toUInt16
        omega
      simp only [create_sockaddr_str, if_true, hcast]
      cases inet_pton host <;> exact ⟨_, rfl, rfl⟩
    obtain ⟨a, ha, hport2⟩ := hstr
    refine ⟨a, ha, ?_, ?_⟩
    · rw [hport2]
      exact ntohs_htons bo p hp16
    · rw [hport2]
      exact objBytes16_htons bo p hp16

/-- Witness for C10 at host `0xC0A80001`, port `40000` (above `32767`) on a
little-endian host. -/
theorem create_sockaddr_round_trip_witness :
    ∃ addr, create_sockaddr ByteOrder.little AF_INET 3232235521 (toInt16 (40000 : Nat))
        = some addr ∧
      (addr.sin_family : Int) = AF_INET ∧
      addr.sin_zero = [0, 0, 0, 0, 0, 0, 0, 0] ∧
      objBytes16 ByteOrder.little addr.sin_port = [40000 / 256, 40000 % 256] ∧
      objBytes32 ByteOrder.little addr.sin_addr =
        [3232235521 / 16777216, 3232235521 / 65536 % 256, 3232235521 / 256 % 256,
          3232235521 % 256] ∧
      ntohs ByteOrder.little addr.sin_port = 40000 ∧
      ntohl ByteOrder.little addr.sin_addr = 3232235521 ∧
      (∀ (os : OS) (s : socket), ∃ r,
        bind ByteOrder.little os s AF_INET 3232235521 (toInt16 (40000 : Nat)) = some r ∧
        r.calls = [Syscall.bind s.socket_ addr sizeof_sockaddr_in]) ∧
      (∀ (inet_pton : String → Option Nat) (host : String),
        ∃ a, create_sockaddr_str ByteOrder.little inet_pton AF_INET host
            (toInt16 (40000 : Nat)) = some a ∧
          ntohs ByteOrder.little a.sin_port = 40000 ∧
          objBytes16 ByteOrder.little a.sin_port = [40000 / 256, 40000 % 256]) :=
  create_sockaddr_round_trip ByteOrder.little 3232235521 40000 (by decide) (by decide)

/-! ## Set-up operations -/

theorem init_spec (plat : Platform) (os : OS) (s : socket) (type protocol : Int)
    (hvalid : os (Syscall.socket AF_INET type protocol)
      ≠ OsOutcome.success INVALID_SOCKET.toNat) :
    ∃ r, init plat os s AF_INET type protocol = some r ∧
      r.calls = [Syscall.socket AF_INET type protocol] ∧
      (r.code = RTP_SOCKET_ERROR ↔ (os (Syscall.socket AF_INET type protocol)).failed = true) ∧
      (∀ fd, os (Syscall.socket AF_INET type protocol) = OsOutcome.success fd →
        r.code = RTP_OK ∧ r.self.socket_ = fd) ∧
      (r.code = RTP_SOCKET_ERROR ∨ r.code = RTP_OK) := by
  cases plat
  · cases h : os (Syscall.socket AF_INET type protocol) with
    | failure e =>
      refine ⟨{ code := RTP_SOCKET_ERROR, self := { s with socket_ := -1 },
                calls := [Syscall.socket AF_INET type protocol] }, ?_, rfl, ?_, ?_, Or.inl rfl⟩
      · simp [init, h, OsOutcome.posixRet]
      · simp [OsOutcome.failed]
      · intro fd hfd
        cases hfd
    | success v =>
      have hv : ¬ ((v : Int) < 0) := by omega
      refine ⟨{ code := RTP_OK, self := { s with socket_ := v },
                calls := [Syscall.socket AF_INET type protocol] }, ?_, rfl, ?_, ?_, Or.inr rfl⟩
      · simp [init, h, OsOutcome.posixRet, hv]
      · simp [OsOutcome.failed]
      · intro fd hfd
        cases hfd
        exact ⟨rfl, rfl⟩
  · cases h : os (Syscall.socket AF_INET type protocol) with
    | failure e =>
      refine ⟨{ code := RTP_SOCKET_ERROR, self := { s with socket_ := INVALID_SOCKET },
                calls := [Syscall.socket AF_INET type protocol] }, ?_, rfl, ?_, ?_, Or.inl rfl⟩
      · simp [init, h, OsOutcome.winsockRet]
      · simp [OsOutcome.failed]
      · intro fd hfd
        cases hfd
    | success v =>
      have hv : (v : Int) ≠ INVALID_SOCKET := by
        intro hv
        apply hvalid
        rw [h, ← hv]
        simp
      refine ⟨{ code := RTP_OK, self := { s with socket_ := v },
                calls := [Syscall.socket AF_INET type protocol] }, ?_, rfl, ?_, ?_, Or.inr rfl⟩
      · simp [init, h, OsOutcome.winsockRet, hv]
      · simp [OsOutcome.failed]
      · intro fd hfd
        cases hfd
        exact ⟨rfl, rfl⟩

theorem setsockopt_spec (os : OS) (s : socket) (level optname : Int) (optval optlen : Nat) :
    (setsockopt os s level optname optval optlen).calls
      = [Syscall.setsockopt s.socket_ level optname optval optlen] ∧
    ((setsockopt os s level optname optval optlen).code = RTP_GENERIC_ERROR ↔
      (os (Syscall.setsockopt s.socket_ level optname optval optlen)).failed = true) ∧
    ((os (Syscall.setsockopt s.socket_ level optname optval optlen)).failed = false →
      (setsockopt os s level optname optval optlen).code = RTP_OK) ∧
    ((setsockopt os s level optname optval optlen).code = RTP_GENERIC_ERROR ∨
      (setsockopt os s level optname optval optlen).code = RTP_OK) ∧
    (setsockopt os s level optname optval optlen).self = s := by
  cases h : os (Syscall.setsockopt s.socket_ level optname optval optlen) <;>
    simp [setsockopt, h, OsOutcome.statusRet, OsOutcome.failed]

theorem bind_spec (bo : ByteOrder) (os : OS) (s : socket) (host : Nat) (port : Int) :
    ∃ r addr, bind bo os s AF_INET host port = some r ∧
      create_sockaddr bo AF_INET host port = some addr ∧
      r.calls = [Syscall.bind s.socket_ addr sizeof_sockaddr_in] ∧
      (r.code = RTP_BIND_ERROR ↔
        (os (Syscall.bind s.socket_ addr sizeof_sockaddr_in)).failed = true) ∧
      ((os (Syscall.bind s.socket_ addr sizeof_sockaddr_in)).failed = false →
        r.code = RTP_OK) ∧
      (r.code = RTP_BIND_ERROR ∨ r.code = RTP_OK) ∧
      r.self = s := by
  obtain ⟨addr, haddr⟩ : ∃ addr, create_sockaddr bo AF_INET host port = some addr :=
    ⟨{ sin_family := toUInt16 AF_INET, sin_port := htons bo (toUInt16 port),
       sin_addr := htonl bo host, sin_zero := sockaddr_in.zeroed.sin_zero },
      by simp [create_sockaddr]⟩
  cases h : os (Syscall.bind s.socket_ addr sizeof_sockaddr_in) with
  | failure e =>
    refine ⟨{ code := RTP_BIND_ERROR, self := s,
              calls := [Syscall.bind s.socket_ addr sizeof_sockaddr_in] }, addr, ?_, haddr, rfl,
      ?_, ?_, Or.inl rfl, rfl⟩
    · simp [bind, haddr, h, OsOutcome.statusRet]
    · simp [h, OsOutcome.failed]
    · simp [h, OsOutcome.failed]
  | success v =>
    refine ⟨{ code := RTP_OK, self := s,
              calls := [Syscall.bind s.socket_ addr sizeof_sockaddr_in] }, addr, ?_, haddr, rfl,
      ?_, ?_, Or.inr rfl, rfl⟩
    · simp [bind, haddr, h, OsOutcome.statusRet]
    · simp [h, OsOutcome.failed]
    · simp [h, OsOutcome.failed]

/-- Claim C5. On either platform, for an `AF_INET` endpoint and every outcome
of the OS calls (a successful `socket` call never yielding the invalid
handle): `init` makes one `socket` request, returns `RTP_SOCKET_ERROR` exactly
when it fails and otherwise `RTP_OK` with the new descriptor stored in
`socket_`; `bind` makes one `bind` request with the address built by
`create_sockaddr`, returns `RTP_BIND_ERROR` exactly when it fails and otherwise
`RTP_OK`; `setsockopt` makes one `setsockopt` request, returns
`RTP_GENERIC_ERROR` exactly when it fails and otherwise `RTP_OK`. No set-up
operation returns any other code. -/
theorem setup_failure_mapping (plat : Platform) (bo : ByteOrder) (os : OS) (s : socket)
    (family type protocol level optname : Int) (optval optlen host : Nat) (port : Int)
    (hfam : family = AF_INET)
    (hvalid : os (Syscall.socket family type protocol)
      ≠ OsOutcome.success INVALID_SOCKET.toNat) :
    (∃ r, init plat os s family type protocol = some r ∧
      r.calls = [Syscall.socket family type protocol] ∧
      (r.code = RTP_SOCKET_ERROR ↔ (os (Syscall.socket family type protocol)).failed = true) ∧
      (∀ fd, os (Syscall.socket family type protocol) = OsOutcome.success fd →
        r.code = RTP_OK ∧ r.self.socket_ = fd) ∧
      (r.code = RTP_SOCKET_ERROR ∨ r.code = RTP_OK)) ∧
    (∃ r addr, bind bo os s family host port = some r ∧
      create_sockaddr bo family host port = some addr ∧
      r.calls = [Syscall.bind s.socket_ addr sizeof_sockaddr_in] ∧
      (r.code = RTP_BIND_ERROR ↔
        (os (Syscall.bind s.socket_ addr sizeof_sockaddr_in)).failed = true) ∧
      ((os (Syscall.bind s.socket_ addr sizeof_sockaddr_in)).failed = false →
        r.code = RTP_OK) ∧
      (r.code = RTP_BIND_ERROR ∨ r.code = RTP_OK) ∧
      r.self = s) ∧
    ((setsockopt os s level optname optval optlen).calls
      = [Syscall.setsockopt s.socket_ level optname optval optlen] ∧
    ((setsockopt os s level optname optval optlen).code = RTP_GENERIC_ERROR ↔
      (os (Syscall.setsockopt s.socket_ level optname optval optlen)).failed = true) ∧
    ((os (Syscall.setsockopt s.socket_ level optname optval optlen)).failed = false →
      (setsockopt os s level optname optval optlen).code = RTP_OK) ∧
    ((setsockopt os s level optname optval optlen).code = RTP_GENERIC_ERROR ∨
      (setsockopt os s level optname optval optlen).code = RTP_OK) ∧
    (setsockopt os s level optname optval optlen).self = s) := by
  subst hfam
  exact ⟨init_spec plat os s type protocol hvalid, bind_spec bo os s host port,
    setsockopt_spec os s level optname optval optlen⟩

/-- Witness for C5: a UDP endpoint (`SOCK_DGRAM`, `IPPROTO_UDP`) on Linux with an
OS that returns descriptor `4`. -/
theorem setup_failure_mapping_witness :
    AF_INET = AF_INET ∧
    sample_os (Syscall.socket AF_INET 2 17) ≠ OsOutcome.success INVALID_SOCKET.toNat ∧
    ((∃ r, init Platform.linux sample_os sample_socket AF_INET 2 17 = some r ∧
      r.calls = [Syscall.socket AF_INET 2 17] ∧
      (r.code = RTP_SOCKET_ERROR ↔ (sample_os (Syscall.socket AF_INET 2 17)).failed = true) ∧
      (∀ fd, sample_os (Syscall.socket AF_INET 2 17) = OsOutcome.success fd →
        r.code = RTP_OK ∧ r.self.socket_ = fd) ∧
      (r.code = RTP_SOCKET_ERROR ∨ r.code = RTP_OK)) ∧
    (∃ r addr, bind ByteOrder.little sample_os sample_socket AF_INET 0 8890 = some r ∧
      create_sockaddr ByteOrder.little AF_INET 0 8890 = some addr ∧
      r.calls = [Syscall.bind sample_socket.socket_ addr sizeof_sockaddr_in] ∧
      (r.code = RTP_BIND_ERROR ↔
        (sample_os (Syscall.bind sample_socket.socket_ addr sizeof_sockaddr_in)).failed = true) ∧
      ((sample_os (Syscall.bind sample_socket.socket_ addr sizeof_sockaddr_in)).failed = false →
        r.code = RTP_OK) ∧
      (r.code = RTP_BIND_ERROR ∨ r.code = RTP_OK) ∧
      r.self = sample_socket) ∧
    ((setsockopt sample_os sample_socket 1 7 4096 4).calls
      = [Syscall.setsockopt sample_socket.socket_ 1 7 4096 4] ∧
    ((setsockopt sample_os sample_socket 1 7 4096 4).code = RTP_GENERIC_ERROR ↔
      (sample_os (Syscall.setsockopt sample_socket.socket_ 1 7 4096 4)).failed = true) ∧
    ((sample_os (Syscall.setsockopt sample_socket.socket_ 1 7 4096 4)).failed = false →
      (setsockopt sample_os sample_socket 1 7 4096 4).code = RTP_OK) ∧
    ((setsockopt sample_os sample_socket 1 7 4096 4).code = RTP_GENERIC_ERROR ∨
      (setsockopt sample_os sample_socket 1 7 4096 4).code = RTP_OK) ∧
    (setsockopt sample_os sample_socket 1 7 4096 4).self = sample_socket)) :=
  ⟨rfl, by decide,
    setup_failure_mapping Platform.linux ByteOrder.little sample_os sample_socket AF_INET 2 17 1 7
      4096 4 0 8890 rfl (by decide)⟩

/-! ## The vectored send: the loop -/

theorem toInt32_idem (x : Int) : toInt32 (toInt32 x) = toInt32 x := by
  unfold toInt32
  omega

theorem sendtov_fill_spec (bufs : List (Nat × Nat)) :
    ∀ (i : Nat) (chunks : List iovec) (sent : Int),
      i + bufs.length ≤ chunks.length → toInt32 sent = sent →
      ∃ chunks', sendtov_fill bufs i chunks sent
          = some (chunks', toInt32 (sent + ((bufs.map Prod.fst).sum : Nat))) ∧
        chunks'.length = chunks.length ∧
        (∀ j, j < i → chunks'[j]? = chunks[j]?) ∧
        (∀ j, j < bufs.length →
          chunks'[i + j]? = (bufs.map (fun b => ({ iov_base := b.2, iov_len := b.1 } : iovec)))[j]?) := by
  induction bufs with
  | nil =>
    intro i chunks sent _ hsent
    refine ⟨chunks, ?_, rfl, fun _ _ => rfl, ?_⟩
    · simp [sendtov_fill, hsent]
    · intro j hj
      simp at hj
  | cons b rest ih =>
    intro i chunks sent hlen hsent
    have hi : i < chunks.length := by
      simp only [List.length_cons] at hlen
      omega
    have hlen1 : (i + 1) + rest.length
        ≤ (chunks.set i { iov_base := b.2, iov_len := b.1 }).length := by
      simp only [List.length_cons] at hlen
      rw [List.length_set]
      omega
    obtain ⟨chunks', hfill, hl, hlow, hhigh⟩ :=
      ih (i + 1) (chunks.set i { iov_base := b.2, iov_len := b.1 }) (toInt32 (sent + b.1)) hlen1
        (toInt32_idem _)
    refine ⟨chunks', ?_, ?_, ?_, ?_⟩
    · simp only [sendtov_fill, if_pos hi, hfill]
      rw [toInt32_add]
      simp only [List.map_cons, List.sum_cons, Nat.cast_add]
      rw [add_assoc]
    · rw [hl, List.length_set]
    · intro j hj
      rw [hlow j (by omega), List.getElem?_set_ne (by omega)]
    · intro j hj
      cases j with
      | zero =>
        rw [Nat.add_zero, hlow i (by omega), List.getElem?_set_self hi]
        simp
      | succ k =>
        have hk : k < rest.length := by
          simp only [List.length_cons] at hj
          omega
        have := hhigh k hk
        rw [show i + (k + 1) = i + 1 + k by omega, this]
        simp

theorem sendtov_fill_take (bufs : List (Nat × Nat)) (chunks : List iovec)
    (hcap : bufs.length ≤ chunks.length) :
    ∃ chunks', sendtov_fill bufs 0 chunks 0
        = some (chunks', toInt32 (((bufs.map Prod.fst).sum : Nat) : Int)) ∧
      chunks'.length = chunks.length ∧
      chunks'.take bufs.length
        = bufs.map (fun b => ({ iov_base := b.2, iov_len := b.1 } : iovec)) := by
  obtain ⟨chunks', hfill, hl, _, hhigh⟩ :=
    sendtov_fill_spec bufs 0 chunks 0 (by omega) (by decide)
  refine ⟨chunks', ?_, hl, ?_⟩
  · rw [hfill, zero_add]
  · apply List.ext_getElem?
    intro n
    by_cases hn : n < bufs.length
    · rw [List.getElem?_take_of_lt hn]
      have := hhigh n hn
      rw [Nat.zero_add] at this
      exact this
    · rw [List.getElem?_take_eq_none (by omega), List.getElem?_eq_none]
      rw [List.length_map]
      omega

theorem sendtov_fill_wsa_spec (bufs : List (Nat × Nat)) :
    ∀ (i : Nat) (wsa : List WSABUF), i + bufs.length ≤ wsa.length →
      ∃ wsa', sendtov_fill_wsa bufs i wsa = some wsa' ∧
        wsa'.length = wsa.length ∧
        (∀ j, j < i → wsa'[j]? = wsa[j]?) ∧
        (∀ j, j < bufs.length →
          wsa'[i + j]? = (bufs.map (fun b => ({ len := toUInt32 b.1, buf := b.2 } : WSABUF)))[j]?) := by
  induction bufs with
  | nil =>
    intro i wsa _
    refine ⟨wsa, rfl, rfl, fun _ _ => rfl, ?_⟩
    intro j hj
    simp at hj
  | cons b rest ih =>
    intro i wsa hlen
    have hi : i < wsa.length := by
      simp only [List.length_cons] at hlen
      omega
    have hlen1 : (i + 1) + rest.length
        ≤ (wsa.set i { len := toUInt32 b.1, buf := b.2 }).length := by
      simp only [List.length_cons] at hlen
      rw [List.length_set]
      omega
    obtain ⟨wsa', hfill, hl, hlow, hhigh⟩ := ih (i + 1) _ hlen1
    refine ⟨wsa', ?_, ?_, ?_, ?_⟩
    · simp only [sendtov_fill_wsa, if_pos hi, hfill]
    · rw [hl, List.length_set]
    · intro j hj
      rw [hlow j (by omega), List.getElem?_set_ne (by omega)]
    · intro j hj
      cases j with
      | zero =>
        rw [Nat.add_zero, hlow i (by omega), List.getElem?_set_self hi]
        simp
      | succ k =>
        have hk : k < rest.length := by
          simp only [List.length_cons] at hj
          omega
        have := hhigh k hk
        rw [show i + (k + 1) = i + 1 + k by omega, this]
        simp

theorem sendtov_fill_wsa_take (bufs : List (Nat × Nat)) (wsa : List WSABUF)
    (hcap : bufs.length ≤ wsa.length) :
    ∃ wsa', sendtov_fill_wsa bufs 0 wsa = some wsa' ∧
      wsa'.take bufs.length
        = bufs.map (fun b => ({ len := toUInt32 b.1, buf := b.2 } : WSABUF)) := by
  obtain ⟨wsa', hfill, _, _, hhigh⟩ := sendtov_fill_wsa_spec bufs 0 wsa (by omega)
  refine ⟨wsa', hfill, ?_⟩
  apply List.ext_getElem?
  intro n
  by_cases hn : n < bufs.length
  · rw [List.getElem?_take_of_lt hn]
    have := hhigh n hn
    rw [Nat.zero_add] at this
    exact this
  · rw [List.getElem?_take_eq_none (by omega), List.getElem?_eq_none]
    rw [List.length_map]
    omega

/-! ## The send operations -/

theorem set_bytes_eq_map (ptr : Option Int) (v : Int) :
    set_bytes ptr v = ptr.map (fun _ => v) := by
  cases ptr <;> rfl

theorem sendtov_linux_spec (os : OS) (s : socket) (addr : sockaddr_in)
    (buffers : List (Nat × Nat)) (flags : Int) (bytes_sent : Option Int)
    (hcap : buffers.length ≤ s.chunks_.length) :
    ∃ r, __sendtov Platform.linux os s addr buffers flags bytes_sent = some r ∧
      r.calls = [Syscall.sendmmsg s.socket_
        [{ name := some addr, namelen := sizeof_sockaddr_in,
           iov := buffers.map (fun b => ({ iov_base := b.2, iov_len := b.1 } : iovec)),
           control := 0, controllen := 0 }] 1 flags] ∧
      (∀ e, os (Syscall.sendmmsg s.socket_
          [{ name := some addr, namelen := sizeof_sockaddr_in,
             iov := buffers.map (fun b => ({ iov_base := b.2, iov_len := b.1 } : iovec)),
             control := 0, controllen := 0 }] 1 flags) = OsOutcome.failure e →
        r.code = RTP_SEND_ERROR ∧ r.bytes = bytes_sent.map (fun _ => -1)) ∧
      (∀ n, os (Syscall.sendmmsg s.socket_
          [{ name := some addr, namelen := sizeof_sockaddr_in,
             iov := buffers.map (fun b => ({ iov_base := b.2, iov_len := b.1 } : iovec)),
             control := 0, controllen := 0 }] 1 flags) = OsOutcome.success n →
        r.code = RTP_OK ∧
        r.bytes = bytes_sent.map (fun _ => toInt32 (((buffers.map Prod.fst).sum : Nat) : Int)) ∧
        r.self.header_.msg_len = n) := by
  obtain ⟨chunks', hfill, _, htake⟩ := sendtov_fill_take buffers s.chunks_ hcap
  simp only [__sendtov, hfill, socket.message, htake, set_bytes_eq_map]
  cases h : os (Syscall.sendmmsg s.socket_
      [{ name := some addr, namelen := sizeof_sockaddr_in,
         iov := buffers.map (fun b => ({ iov_base := b.2, iov_len := b.1 } : iovec)),
         control := 0, controllen := 0 }] 1 flags) with
  | failure e =>
    simp [OsOutcome.sendmmsgRet]
  | success n =>
    simp [OsOutcome.sendmmsgRet, OsOutcome.transferred]

theorem sendtov_windows_spec (os : OS) (s : socket) (addr : sockaddr_in)
    (buffers : List (Nat × Nat)) (flags : Int) (bytes_sent : Option Int)
    (hcap : buffers.length ≤ s.buffers_.length) :
    ∃ r, __sendtov Platform.windows os s addr buffers flags bytes_sent = some r ∧
      r.calls = [Syscall.WSASendTo s.socket_
        (buffers.map (fun b => ({ len := toUInt32 b.1, buf := b.2 } : WSABUF)))
        buffers.length flags addr sizeof_sockaddr_in] ∧
      (∀ e, os (Syscall.WSASendTo s.socket_
          (buffers.map (fun b => ({ len := toUInt32 b.1, buf := b.2 } : WSABUF)))
          buffers.length flags addr sizeof_sockaddr_in) = OsOutcome.failure e →
        r.code = RTP_SEND_ERROR ∧ r.bytes = bytes_sent.map (fun _ => -1)) ∧
      (∀ n, os (Syscall.WSASendTo s.socket_
          (buffers.map (fun b => ({ len := toUInt32 b.1, buf := b.2 } : WSABUF)))
          buffers.length flags addr sizeof_sockaddr_in) = OsOutcome.success n →
        r.code = RTP_OK ∧
        r.bytes = bytes_sent.map (fun _ => toInt32 (toUInt32 n))) := by
  obtain ⟨wsa', hfill, htake⟩ := sendtov_fill_wsa_take buffers s.buffers_ hcap
  simp only [__sendtov, hfill, htake, set_bytes_eq_map]
  cases h : os (Syscall.WSASendTo s.socket_
      (buffers.map (fun b => ({ len := toUInt32 b.1, buf := b.2 } : WSABUF)))
      buffers.length flags addr sizeof_sockaddr_in) with
  | failure e =>
    simp [OsOutcome.statusRet]
  | success n =>
    simp [OsOutcome.statusRet, OsOutcome.transferred]

theorem sendto_linux_spec (os : OS) (nsend0 : Int) (s : socket) (addr : sockaddr_in)
    (buf buf_len : Nat) (flags : Int) (bytes_sent : Option Int) :
    (__sendto Platform.linux os nsend0 s addr buf buf_len flags bytes_sent).calls
      = [Syscall.sendto s.socket_ buf buf_len flags addr sizeof_sockaddr_in] ∧
    (∀ e, os (Syscall.sendto s.socket_ buf buf_len flags addr sizeof_sockaddr_in)
        = OsOutcome.failure e →
      (__sendto Platform.linux os nsend0 s addr buf buf_len flags bytes_sent).code
        = RTP_SEND_ERROR ∧
      (__sendto Platform.linux os nsend0 s addr buf buf_len flags bytes_sent).bytes
        = bytes_sent.map (fun _ => -1)) ∧
    (∀ n, n < 2147483648 →
      os (Syscall.sendto s.socket_ buf buf_len flags addr sizeof_sockaddr_in)
        = OsOutcome.success n →
      (__sendto Platform.linux os nsend0 s addr buf buf_len flags bytes_sent).code = RTP_OK ∧
      (__sendto Platform.linux os nsend0 s addr buf buf_len flags bytes_sent).bytes
        = bytes_sent.map (fun _ => (n : Int))) := by
  refine ⟨?_, ?_, ?_⟩
  · simp only [__sendto]
    split <;> rfl
  · intro e h
    have h1 : toInt32 (-1) = -1 := by decide
    cases bytes_sent <;> simp [__sendto, h, OsOutcome.posixRet, h1]
  · intro n hn h
    have h1 : toInt32 (n : Int) = n := toInt32_of_fits n hn
    have h2 : ¬ ((n : Int) = -1) := by omega
    cases bytes_sent <;> simp [__sendto, h, OsOutcome.posixRet, h1, h2]

theorem fitsInt_success (o : OsOutcome) (n : Nat) (h : o.fitsInt) (ho : o = OsOutcome.success n) :
    n < 2147483648 := by
  subst ho
  exact h

/-- Counterexample to C2: on the Linux variant a vectored send of two buffers
of six and four bytes, for which the OS reports four bytes transmitted
(`msg_len = 4`), succeeds and writes `10`, the sum of the buffer lengths, to
`bytes_sent`. -/
theorem bytes_sent_counterexample :
    (__sendtov Platform.linux (fun _ => OsOutcome.success 4)
        (socket.new [⟨0, 0⟩, ⟨0, 0⟩] []) sockaddr_in.zeroed [(6, 4096), (4, 8192)] 0 (some 0)).map
      (fun r => (r.code, r.self.header_.msg_len, r.bytes)) = some (RTP_OK, 4, some 10) := by
  decide

/-- Claim C2 (amended). For every successful send and every byte count `n`
that the OS reports as transmitted (`n` fitting an `int`): the single-buffer
send of the Linux variant writes `n` to `bytes_sent`; the vectored send of the
Winsock variant writes `n`; the vectored send of the Linux variant writes the
sum of the buffer lengths, converted to `int`, whatever `n` is (the OS count
goes to `header_.msg_len` only), so a transmission shorter than the sum is not
visible there. -/
theorem bytes_sent_reporting (os : OS) (nsend0 : Int) (s : socket) (addr : sockaddr_in)
    (buf buf_len : Nat) (buffers : List (Nat × Nat)) (flags : Int) (cell : Int) (n : Nat)
    (hn : n < 2147483648) :
    (os (Syscall.sendto s.socket_ buf buf_len flags addr sizeof_sockaddr_in)
        = OsOutcome.success n →
      (__sendto Platform.linux os nsend0 s addr buf buf_len flags (some cell)).code = RTP_OK ∧
      (__sendto Platform.linux os nsend0 s addr buf buf_len flags (some cell)).bytes
        = some (n : Int)) ∧
    (buffers.length ≤ s.chunks_.length →
      os (Syscall.sendmmsg s.socket_
          [{ name := some addr, namelen := sizeof_sockaddr_in,
             iov := buffers.map (fun b => ({ iov_base := b.2, iov_len := b.1 } : iovec)),
             control := 0, controllen := 0 }] 1 flags) = OsOutcome.success n →
      ∃ r, __sendtov Platform.linux os s addr buffers flags (some cell) = some r ∧
        r.code = RTP_OK ∧
        r.self.header_.msg_len = n ∧
        r.bytes = some (toInt32 (((buffers.map Prod.fst).sum : Nat) : Int)) ∧
        ((buffers.map Prod.fst).sum < 2147483648 →
          r.bytes = some (((buffers.map Prod.fst).sum : Nat) : Int))) ∧
    (buffers.length ≤ s.buffers_.length →
      os (Syscall.WSASendTo s.socket_
          (buffers.map (fun b => ({ len := toUInt32 b.1, buf := b.2 } : WSABUF)))
          buffers.length flags addr sizeof_sockaddr_in) = OsOutcome.success n →
      ∃ r, __sendtov Platform.windows os s addr buffers flags (some cell) = some r ∧
        r.code = RTP_OK ∧
        r.bytes = some (n : Int)) := by
  refine ⟨?_, ?_, ?_⟩
  · intro h
    obtain ⟨_, _, hs⟩ := sendto_linux_spec os nsend0 s addr buf buf_len flags (some cell)
    exact hs n hn h
  · intro hcap h
    obtain ⟨r, hr, _, _, hs⟩ := sendtov_linux_spec os s addr buffers flags (some cell) hcap
    obtain ⟨h1, h2, h3⟩ := hs n h
    refine ⟨r, hr, h1, h3, h2, ?_⟩
    intro hsum
    rw [h2, Option.map_some', toInt32_of_fits _ hsum]
  · intro hcap h
    obtain ⟨r, hr, _, _, hs⟩ := sendtov_windows_spec os s addr buffers flags (some cell) hcap
    obtain ⟨h1, h2⟩ := hs n h
    refine ⟨r, hr, h1, ?_⟩
    rw [h2, Option.map_some', toInt32_toUInt32 n hn]

/-- Witness for C2 (amended): an OS that reports four bytes transmitted, ten
bytes requested. -/
theorem bytes_sent_reporting_witness :
    (4 : Nat) < 2147483648 ∧
    ((__sendto Platform.linux sample_os 0 sample_socket sockaddr_in.zeroed 4096 10 0
        (some 0)).code = RTP_OK ∧
      (__sendto Platform.linux sample_os 0 sample_socket sockaddr_in.zeroed 4096 10 0
        (some 0)).bytes = some ((4 : Nat) : Int)) ∧
    (∃ r, __sendtov Platform.linux sample_os sample_socket sockaddr_in.zeroed sample_buffers 0
        (some 0) = some r ∧
      r.code = RTP_OK ∧
      r.self.header_.msg_len = 4 ∧
      r.bytes = some (toInt32 (((sample_buffers.map Prod.fst).sum : Nat) : Int)) ∧
      ((sample_buffers.map Prod.fst).sum < 2147483648 →
        r.bytes = some (((sample_buffers.map Prod.fst).sum : Nat) : Int))) ∧
    (∃ r, __sendtov Platform.windows sample_os sample_socket sockaddr_in.zeroed sample_buffers 0
        (some 0) = some r ∧
      r.code = RTP_OK ∧
      r.bytes = some ((4 : Nat) : Int)) :=
  ⟨by decide,
    (bytes_sent_reporting sample_os 0 sample_socket sockaddr_in.zeroed 4096 10 sample_buffers 0 0 4
      (by decide)).1 rfl,
    (bytes_sent_reporting sample_os 0 sample_socket sockaddr_in.zeroed 4096 10 sample_buffers 0 0 4
      (by decide)).2.1 (by decide) rfl,
    (bytes_sent_reporting sample_os 0 sample_socket sockaddr_in.zeroed 4096 10 sample_buffers 0 0 4
      (by decide)).2.2 (by decide) rfl⟩

/-! ## Scatter-gather -/

theorem sendtov_fill_none (bufs : List (Nat × Nat)) :
    ∀ (i : Nat) (chunks : List iovec) (sent : Int),
      i ≤ chunks.length → chunks.length < i + bufs.length →
      sendtov_fill bufs i chunks sent = none := by
  induction bufs with
  | nil =>
    intro i chunks sent h1 h2
    simp only [List.length_nil] at h2
    omega
  | cons b rest ih =>
    intro i chunks sent h1 h2
    simp only [List.length_cons] at h2
    by_cases hi : i < chunks.length
    · simp only [sendtov_fill, if_pos hi]
      apply ih
      · rw [List.length_set]
        omega
      · rw [List.length_set]
        omega
    · simp only [sendtov_fill, if_neg hi]

/-- Counterexample to C8: a buffer list whose lengths sum to `2^31` makes the
loop compute the total `-2^31`, which a successful send reports in
`bytes_sent`; and whatever the capacity of `chunks_`, a list one element longer
is stored past the end of the array, so no message is defined. -/
theorem sendtov_scatter_gather_counterexample :
    (sendtov_fill [(2147483648, 4096)] 0 [⟨0, 0⟩] 0).map Prod.snd = some (-2147483648) ∧
    (__sendtov Platform.linux (fun _ => OsOutcome.success 0) (socket.new [⟨0, 0⟩] [])
        sockaddr_in.zeroed [(2147483648, 4096)] 0 (some 0)).map io_result.bytes
      = some (some (-2147483648)) ∧
    (∀ (os : OS) (s : socket) (addr : sockaddr_in) (flags : Int) (bytes_sent : Option Int),
      __sendtov Platform.linux os s addr (List.replicate (s.chunks_.length + 1) (1, 4096)) flags
        bytes_sent = none) := by
  refine ⟨by decide, by decide, ?_⟩
  intro os s addr flags bytes_sent
  have h := sendtov_fill_none (List.replicate (s.chunks_.length + 1) (1, 4096)) 0 s.chunks_ 0
    (by omega) (by rw [List.length_replicate]; omega)
  simp only [__sendtov, h]

/-- Claim C8 (amended). For every list of (length, pointer) buffers that fits
the `chunks_` array, the Linux vectored send hands the OS exactly one
`sendmmsg` request of one message, addressed to the given destination, whose
iovec array lists the buffers one for one in input order (same length and
base, as many entries as buffers, no control data), so that the datagram is the
concatenation of the buffers in input order; and the byte total it computes is
the sum of the input lengths converted to a 32-bit `int`, which is the sum
itself whenever the sum is below `2^31`. -/
theorem sendtov_scatter_gather (os : OS) (s : socket) (addr : sockaddr_in)
    (buffers : List (Nat × Nat)) (flags : Int) (bytes_sent : Option Int) (mem : Nat → Nat)
    (hcap : buffers.length ≤ s.chunks_.length) :
    ∃ r m, __sendtov Platform.linux os s addr buffers flags bytes_sent = some r ∧
      r.calls = [Syscall.sendmmsg s.socket_ [m] 1 flags] ∧
      m.name = some addr ∧
      m.namelen = sizeof_sockaddr_in ∧
      m.iov.length = buffers.length ∧
      m.iov = buffers.map (fun b => ({ iov_base := b.2, iov_len := b.1 } : iovec)) ∧
      m.control = 0 ∧
      m.controllen = 0 ∧
      m.datagram mem = (buffers.map (fun b => readBytes mem b.2 b.1)).flatten ∧
      (sendtov_fill buffers 0 s.chunks_ 0).map Prod.snd
        = some (toInt32 (((buffers.map Prod.fst).sum : Nat) : Int)) ∧
      ((buffers.map Prod.fst).sum < 2147483648 →
        (sendtov_fill buffers 0 s.chunks_ 0).map Prod.snd
          = some (((buffers.map Prod.fst).sum : Nat) : Int)) := by
  obtain ⟨r, hr, hc, _, _⟩ := sendtov_linux_spec os s addr buffers flags bytes_sent hcap
  obtain ⟨chunks, hfill, _, _⟩ := sendtov_fill_take buffers s.chunks_ hcap
  refine ⟨r, _, hr, hc, rfl, rfl, by simp, rfl, rfl, rfl, ?_, ?_, ?_⟩
  · simp [os_msg.datagram, List.map_map, Function.comp_def]
  · rw [hfill]
    rfl
  · intro hsum
    rw [hfill, Option.map_some', toInt32_of_fits _ hsum]

/-- Witness for C8 (amended): two buffers in a four-element array. -/
theorem sendtov_scatter_gather_witness :
    sample_buffers.length ≤ sample_socket.chunks_.length ∧
    (∃ r m, __sendtov Platform.linux sample_os sample_socket sockaddr_in.zeroed sample_buffers 0
        (some 0) = some r ∧
      r.calls = [Syscall.sendmmsg sample_socket.socket_ [m] 1 0] ∧
      m.name = some sockaddr_in.zeroed ∧
      m.namelen = sizeof_sockaddr_in ∧
      m.iov.length = sample_buffers.length ∧
      m.iov = sample_buffers.map (fun b => ({ iov_base := b.2, iov_len := b.1 } : iovec)) ∧
      m.control = 0 ∧
      m.controllen = 0 ∧
      m.datagram (fun a => a % 256)
        = (sample_buffers.map (fun b => readBytes (fun a => a % 256) b.2 b.1)).flatten ∧
      (sendtov_fill sample_buffers 0 sample_socket.chunks_ 0).map Prod.snd
        = some (toInt32 (((sample_buffers.map Prod.fst).sum : Nat) : Int)) ∧
      ((sample_buffers.map Prod.fst).sum < 2147483648 →
        (sendtov_fill sample_buffers 0 sample_socket.chunks_ 0).map Prod.snd
          = some (((sample_buffers.map Prod.fst).sum : Nat) : Int))) :=
  ⟨by decide,
    sendtov_scatter_gather sample_os sample_socket sockaddr_in.zeroed sample_buffers 0 (some 0)
      (fun a => a % 256) (by decide)⟩

/-! ## Receiving -/

theorem recvfrom_spec (plat : Platform) (os : OS) (s : socket) (buf buf_len : Nat) (flags : Int)
    (sender : Option sockaddr_in) (bytes_read : Option Int) :
    (__recvfrom plat os s buf buf_len flags sender bytes_read).calls
      = [(Syscall.recvfrom s.socket_ buf buf_len flags sender.isSome
          (if sender.isSome = true then some sizeof_sockaddr_in else none))] ∧
    (∀ e, os (Syscall.recvfrom s.socket_ buf buf_len flags sender.isSome
          (if sender.isSome = true then some sizeof_sockaddr_in else none)) = OsOutcome.failure e →
      (plat = Platform.linux ∧ e = EAGAIN →
        (__recvfrom plat os s buf buf_len flags sender bytes_read).code = RTP_INTERRUPTED ∧
        (__recvfrom plat os s buf buf_len flags sender bytes_read).bytes = bytes_read) ∧
      (¬ (plat = Platform.linux ∧ e = EAGAIN) →
        (__recvfrom plat os s buf buf_len flags sender bytes_read).code = RTP_GENERIC_ERROR ∧
        (__recvfrom plat os s buf buf_len flags sender bytes_read).bytes
          = bytes_read.map (fun _ => -1))) ∧
    (∀ n, n < 2147483648 →
      os (Syscall.recvfrom s.socket_ buf buf_len flags sender.isSome
          (if sender.isSome = true then some sizeof_sockaddr_in else none)) = OsOutcome.success n →
      (__recvfrom plat os s buf buf_len flags sender bytes_read).code = RTP_OK ∧
      (__recvfrom plat os s buf buf_len flags sender bytes_read).bytes
        = bytes_read.map (fun _ => (n : Int))) := by
  have h1 : toInt32 (-1) = -1 := by decide
  refine ⟨?_, ?_, ?_⟩
  · cases plat <;> simp only [__recvfrom] <;> split_ifs <;> rfl
  · intro e h
    refine ⟨?_, ?_⟩
    · rintro ⟨rfl, rfl⟩
      cases bytes_read <;> simp [__recvfrom, h, OsOutcome.posixRet, OsOutcome.errno, h1]
    · intro hne
      cases plat
      · have he : e ≠ EAGAIN := fun he => hne ⟨rfl, he⟩
        cases bytes_read <;> simp [__recvfrom, h, OsOutcome.posixRet, OsOutcome.errno, h1, he]
      · cases bytes_read <;> simp [__recvfrom, h, OsOutcome.posixRet, h1]
  · intro n hn h
    have h2 : toInt32 (n : Int) = n := toInt32_of_fits n hn
    have h3 : ¬ ((n : Int) = -1) := by omega
    cases plat <;> cases bytes_read <;> simp [__recvfrom, h, OsOutcome.posixRet, h2, h3]

/-- Counterexample to C3: on the Linux variant a receive that fails with
`EINTR` (interrupted by a signal) returns `RTP_GENERIC_ERROR`, not
`RTP_INTERRUPTED`; on the Winsock variant so does a receive that fails with
`EAGAIN`. -/
theorem recvfrom_eintr_counterexample :
    (__recvfrom Platform.linux (fun _ => OsOutcome.failure EINTR) (socket.new [] []) 4096 1500 0
      none (some 0)).code = RTP_GENERIC_ERROR ∧
    (__recvfrom Platform.linux (fun _ => OsOutcome.failure EINTR) (socket.new [] []) 4096 1500 0
      none (some 0)).code ≠ RTP_INTERRUPTED ∧
    (__recvfrom Platform.windows (fun _ => OsOutcome.failure EAGAIN) (socket.new [] []) 4096 1500
      0 none (some 0)).code = RTP_GENERIC_ERROR := by
  decide

/-- Claim C3 (amended). For every receive (the OS reporting a count that fits
an `int`): a failing receive returns `RTP_INTERRUPTED` exactly when the
endpoint is the Linux variant and the OS error is `EAGAIN` (expired deadline,
no data available); every other failing receive, which includes a failure with
`EINTR` (interruption by a signal) on either variant and every failure on the
Winsock variant, returns `RTP_GENERIC_ERROR`; and a successful receive returns
`RTP_OK` with `bytes_read` equal to the number of bytes the OS returned. -/
theorem recvfrom_interrupted_mapping (plat : Platform) (os : OS) (s : socket)
    (buf buf_len : Nat) (flags : Int) (sender : Option sockaddr_in) (bytes_read : Option Int)
    (hos : ∀ c, (os c).fitsInt) :
    ∃ c, (__recvfrom plat os s buf buf_len flags sender bytes_read).calls = [c] ∧
      (∀ e, os c = OsOutcome.failure e →
        ((__recvfrom plat os s buf buf_len flags sender bytes_read).code = RTP_INTERRUPTED ↔
          plat = Platform.linux ∧ e = EAGAIN)) ∧
      (∀ e, os c = OsOutcome.failure e →
        ¬ (plat = Platform.linux ∧ e = EAGAIN) →
        (__recvfrom plat os s buf buf_len flags sender bytes_read).code = RTP_GENERIC_ERROR) ∧
      (os c = OsOutcome.failure EINTR →
        (__recvfrom plat os s buf buf_len flags sender bytes_read).code = RTP_GENERIC_ERROR) ∧
      (∀ n, os c = OsOutcome.success n →
        (__recvfrom plat os s buf buf_len flags sender bytes_read).code = RTP_OK ∧
        (__recvfrom plat os s buf buf_len flags sender bytes_read).bytes
          = (bytes_read).map (fun _ => (n : Int))) := by
  obtain ⟨hc, hf, hs⟩ := recvfrom_spec plat os s buf buf_len flags sender bytes_read
  refine ⟨_, hc, ?_, ?_, ?_, ?_⟩
  · intro e he
    obtain ⟨h1, h2⟩ := hf e he
    constructor
    · intro hcode
      by_contra hne
      rw [(h2 hne).1] at hcode
      cases hcode
    · intro h
      exact (h1 h).1
  · intro e he hne
    exact ((hf e he).2 hne).1
  · intro he
    exact ((hf EINTR he).2 (by rintro ⟨_, h⟩; revert h; decide)).1
  · intro n hn
    exact hs n (fitsInt_success _ n (hos _) hn) hn

/-- Witness for C3 (amended): a receive whose deadline expires (`EAGAIN`), on
the Linux variant, where it is `RTP_INTERRUPTED`, and on the Winsock variant,
where it is `RTP_GENERIC_ERROR`; and a successful receive of four bytes. -/
theorem recvfrom_interrupted_mapping_witness :
    (∀ c, (timeout_os c).fitsInt) ∧
    (∀ c, (sample_os c).fitsInt) ∧
    (∃ c, (__recvfrom Platform.linux timeout_os sample_socket 4096 1500 0 none (some 0)).calls = [c] ∧
      (∀ e, timeout_os c = OsOutcome.failure e →
        ((__recvfrom Platform.linux timeout_os sample_socket 4096 1500 0 none (some 0)).code = RTP_INTERRUPTED ↔
          Platform.linux = Platform.linux ∧ e = EAGAIN)) ∧
      (∀ e, timeout_os c = OsOutcome.failure e →
        ¬ (Platform.linux = Platform.linux ∧ e = EAGAIN) →
        (__recvfrom Platform.linux timeout_os sample_socket 4096 1500 0 none (some 0)).code = RTP_GENERIC_ERROR) ∧
      (timeout_os c = OsOutcome.failure EINTR →
        (__recvfrom Platform.linux timeout_os sample_socket 4096 1500 0 none (some 0)).code = RTP_GENERIC_ERROR) ∧
      (∀ n, timeout_os c = OsOutcome.success n →
        (__recvfrom Platform.linux timeout_os sample_socket 4096 1500 0 none (some 0)).code = RTP_OK ∧
        (__recvfrom Platform.linux timeout_os sample_socket 4096 1500 0 none (some 0)).bytes
          = ((some 0)).map (fun _ => (n : Int)))) ∧
    (∃ c, (__recvfrom Platform.windows timeout_os sample_socket 4096 1500 0 none (some 0)).calls = [c] ∧
      (∀ e, timeout_os c = OsOutcome.failure e →
        ((__recvfrom Platform.windows timeout_os sample_socket 4096 1500 0 none (some 0)).code = RTP_INTERRUPTED ↔
          Platform.windows = Platform.linux ∧ e = EAGAIN)) ∧
      (∀ e, timeout_os c = OsOutcome.failure e →
        ¬ (Platform.windows = Platform.linux ∧ e = EAGAIN) →
        (__recvfrom Platform.windows timeout_os sample_socket 4096 1500 0 none (some 0)).code = RTP_GENERIC_ERROR) ∧
      (timeout_os c = OsOutcome.failure EINTR →
        (__recvfrom Platform.windows timeout_os sample_socket 4096 1500 0 none (some 0)).code = RTP_GENERIC_ERROR) ∧
      (∀ n, timeout_os c = OsOutcome.success n →
        (__recvfrom Platform.windows timeout_os sample_socket 4096 1500 0 none (some 0)).code = RTP_OK ∧
        (__recvfrom Platform.windows timeout_os sample_socket 4096 1500 0 none (some 0)).bytes
          = ((some 0)).map (fun _ => (n : Int)))) ∧
    (∃ c, (__recvfrom Platform.linux sample_os sample_socket 4096 1500 0 none (some 0)).calls = [c] ∧
      (∀ e, sample_os c = OsOutcome.failure e →
        ((__recvfrom Platform.linux sample_os sample_socket 4096 1500 0 none (some 0)).code = RTP_INTERRUPTED ↔
          Platform.linux = Platform.linux ∧ e = EAGAIN)) ∧
      (∀ e, sample_os c = OsOutcome.failure e →
        ¬ (Platform.linux = Platform.linux ∧ e = EAGAIN) →
        (__recvfrom Platform.linux sample_os sample_socket 4096 1500 0 none (some 0)).code = RTP_GENERIC_ERROR) ∧
      (sample_os c = OsOutcome.failure EINTR →
        (__recvfrom Platform.linux sample_os sample_socket 4096 1500 0 none (some 0)).code = RTP_GENERIC_ERROR) ∧
      (∀ n, sample_os c = OsOutcome.success n →
        (__recvfrom Platform.linux sample_os sample_socket 4096 1500 0 none (some 0)).code = RTP_OK ∧
        (__recvfrom Platform.linux sample_os sample_socket 4096 1500 0 none (some 0)).bytes
          = ((some 0)).map (fun _ => (n : Int)))) ∧
    (__recvfrom Platform.linux timeout_os sample_socket 4096 1500 0 none (some 0)).code
      = RTP_INTERRUPTED ∧
    (__recvfrom Platform.windows timeout_os sample_socket 4096 1500 0 none (some 0)).code
      = RTP_GENERIC_ERROR :=
  ⟨fun _ => trivial, fun _ => (by decide : (4 : Nat) < 2147483648),
    recvfrom_interrupted_mapping Platform.linux timeout_os sample_socket 4096 1500 0 none (some 0)
      (fun _ => trivial),
    recvfrom_interrupted_mapping Platform.windows timeout_os sample_socket 4096 1500 0 none
      (some 0) (fun _ => trivial),
    recvfrom_interrupted_mapping Platform.linux sample_os sample_socket 4096 1500 0 none (some 0)
      (fun _ => (by decide : (4 : Nat) < 2147483648)),
    by
      obtain ⟨c, hc, h, _⟩ := recvfrom_interrupted_mapping Platform.linux timeout_os
        sample_socket 4096 1500 0 none (some 0) (fun _ => trivial)
      exact (h EAGAIN rfl).2 ⟨rfl, rfl⟩,
    by
      obtain ⟨c, hc, _, h, _⟩ := recvfrom_interrupted_mapping Platform.windows timeout_os
        sample_socket 4096 1500 0 none (some 0) (fun _ => trivial)
      exact h EAGAIN rfl (by decide)⟩

/-- Counterexample to C4: on the Linux variant a receive that fails with
`ECONNREFUSED`, which is neither a deadline nor an interruption, returns
`RTP_GENERIC_ERROR`, not `RTP_SOCKET_ERROR`. -/
theorem recvfrom_failure_counterexample :
    (__recvfrom Platform.linux (fun _ => OsOutcome.failure ECONNREFUSED) (socket.new [] []) 4096
      1500 0 none (some 0)).code = RTP_GENERIC_ERROR ∧
    (__recvfrom Platform.linux (fun _ => OsOutcome.failure ECONNREFUSED) (socket.new [] []) 4096
      1500 0 none (some 0)).code ≠ RTP_SOCKET_ERROR := by
  decide

/-- Claim C4 (amended). For every failing receive whose cause is not a deadline
interruption (on the Linux variant: whose OS error is not `EAGAIN`; the Winsock
variant makes no such distinction), the returned code is `RTP_GENERIC_ERROR`,
never `RTP_OK` or `RTP_INTERRUPTED`. -/
theorem recvfrom_failure_code (plat : Platform) (os : OS) (s : socket)
    (buf buf_len : Nat) (flags : Int) (sender : Option sockaddr_in) (bytes_read : Option Int)
    (e : Int)
    (hfail : os (Syscall.recvfrom s.socket_ buf buf_len flags sender.isSome
          (if sender.isSome = true then some sizeof_sockaddr_in else none)) = OsOutcome.failure e)
    (hcause : plat = Platform.linux → e ≠ EAGAIN) :
    (__recvfrom plat os s buf buf_len flags sender bytes_read).code = RTP_GENERIC_ERROR ∧
    (__recvfrom plat os s buf buf_len flags sender bytes_read).code ≠ RTP_OK ∧
    (__recvfrom plat os s buf buf_len flags sender bytes_read).code ≠ RTP_INTERRUPTED := by
  obtain ⟨_, hf, _⟩ := recvfrom_spec plat os s buf buf_len flags sender bytes_read
  obtain ⟨h1, _⟩ := (hf e hfail).2 (fun h => hcause h.1 h.2)
  rw [h1]
  exact ⟨rfl, by decide, by decide⟩

/-- Witness for C4 (amended): a refused connection on the Linux variant. -/
theorem recvfrom_failure_code_witness :
    (fun _ => OsOutcome.failure ECONNREFUSED : OS)
        (Syscall.recvfrom sample_socket.socket_ 4096 1500 0 (none : Option sockaddr_in).isSome
          (if (none : Option sockaddr_in).isSome = true then some sizeof_sockaddr_in else none))
      = OsOutcome.failure ECONNREFUSED ∧
    (Platform.linux = Platform.linux → ECONNREFUSED ≠ EAGAIN) ∧
    ((__recvfrom Platform.linux (fun _ => OsOutcome.failure ECONNREFUSED) sample_socket 4096 1500 0
        none (some 0)).code = RTP_GENERIC_ERROR ∧
      (__recvfrom Platform.linux (fun _ => OsOutcome.failure ECONNREFUSED) sample_socket 4096 1500 0
        none (some 0)).code ≠ RTP_OK ∧
      (__recvfrom Platform.linux (fun _ => OsOutcome.failure ECONNREFUSED) sample_socket 4096 1500 0
        none (some 0)).code ≠ RTP_INTERRUPTED) :=
  ⟨rfl, fun _ => by decide,
    recvfrom_failure_code Platform.linux (fun _ => OsOutcome.failure ECONNREFUSED) sample_socket
      4096 1500 0 none (some 0) ECONNREFUSED rfl (fun _ => by decide)⟩

/-- Claim C9, evaluated at the failing input. On the Linux variant, a receive
that fails with `EAGAIN`, called with `bytes_read` pointing at a cell that
holds `7`, returns `RTP_INTERRUPTED` and leaves the cell holding `7`: the
statement `bytes_read = 0` clears the local pointer and stores nothing. The
other two return paths do write the cell: the received count on `RTP_OK`, `-1`
on `RTP_GENERIC_ERROR`. -/
theorem recvfrom_eagain_keeps_bytes_read :
    (__recvfrom Platform.linux (fun _ => OsOutcome.failure EAGAIN) (socket.new [] []) 4096 1500 0
      none (some 7)).code = RTP_INTERRUPTED ∧
    (__recvfrom Platform.linux (fun _ => OsOutcome.failure EAGAIN) (socket.new [] []) 4096 1500 0
      none (some 7)).bytes = some 7 ∧
    (__recvfrom Platform.linux (fun _ => OsOutcome.success 1200) (socket.new [] []) 4096 1500 0
      none (some 7)).bytes = some 1200 ∧
    (__recvfrom Platform.linux (fun _ => OsOutcome.failure ECONNREFUSED) (socket.new [] []) 4096
      1500 0 none (some 7)).bytes = some (-1) := by
  decide

end kvz_rtp

namespace proxy

open kvz_rtp

/-! ## The proxy's receive hook -/

theorem pushes_append (a b : List Event) : pushes (a ++ b) = pushes a ++ pushes b := by
  simp [pushes, List.filter_append]

theorem hook_some_spec (w : World) (past : List Event) (ctx : uvgrtpCtx) (stream : Nat)
    (f : rtp_frame) (hsnd : ctx.sndStream = some stream) :
    ∃ evs, rtp_receive_hook w past ctx (some f) = some evs ∧
      pushes evs = (if 1 ≤ f.payload_len then
        [Event.push_frame stream f.payload f.payload_len rtp_flags_t.RTP_NO_H26X_SCL] else []) ∧
      deallocs evs = [f] ∧
      evs.getLast? = some (Event.dealloc_frame f) ∧
      evs.count (Event.dealloc_frame f) = 1 := by
  by_cases hlen : f.payload_len > 0
  · have h1 : 1 ≤ f.payload_len := hlen
    simp only [rtp_receive_hook, if_pos hlen, hsnd]
    split
    · refine ⟨_, rfl, ?_, ?_, ?_, ?_⟩
      · simp [pushes, h1]
      · simp [deallocs]
      · simp
      · simp [List.count_cons]
    · refine ⟨_, rfl, ?_, ?_, ?_, ?_⟩
      · simp [pushes, h1]
      · simp [deallocs]
      · simp
      · simp [List.count_cons]
  · have h0 : ¬ (1 ≤ f.payload_len) := hlen
    refine ⟨[Event.dealloc_frame f], ?_, ?_, ?_, ?_, ?_⟩
    · simp only [rtp_receive_hook, if_neg hlen]
    · simp [pushes, h0]
    · simp [deallocs]
    · simp
    · simp

theorem forwarded_cons_some (f : rtp_frame) (rest : List (Option rtp_frame)) :
    forwarded (some f :: rest)
      = (if 1 ≤ f.payload_len then [f] else []) ++ forwarded rest := by
  by_cases h : f.payload_len > 0
  · have h1 : 1 ≤ f.payload_len := h
    simp [forwarded, List.filterMap_cons, h, h1]
  · have h0 : ¬ (1 ≤ f.payload_len) := h
    simp [forwarded, List.filterMap_cons, h, h0]

theorem forwarded_cons_none (rest : List (Option rtp_frame)) :
    forwarded (none :: rest) = forwarded rest := by
  simp [forwarded, List.filterMap_cons]

theorem deliver_spec (w : World) (ctx : uvgrtpCtx) (stream : Nat)
    (hsnd : ctx.sndStream = some stream) (frames : List (Option rtp_frame)) :
    ∀ past, ∃ tr, deliver w ctx frames past = some tr ∧
      pushes tr = (forwarded frames).map
        (fun g => Event.push_frame stream g.payload g.payload_len rtp_flags_t.RTP_NO_H26X_SCL) := by
  induction frames with
  | nil =>
    intro past
    exact ⟨[], rfl, rfl⟩
  | cons o rest ih =>
    intro past
    cases o with
    | none =>
      obtain ⟨more, hmore, hp⟩ := ih (past ++ [])
      refine ⟨[] ++ more, ?_, ?_⟩
      · simp only [deliver, rtp_receive_hook, hmore]
      · rw [forwarded_cons_none, List.nil_append, hp]
    | some f =>
      obtain ⟨evs, hevs, hpush, _, _, _⟩ := hook_some_spec w past ctx stream f hsnd
      obtain ⟨more, hmore, hp⟩ := ih (past ++ evs)
      refine ⟨evs ++ more, ?_, ?_⟩
      · simp only [deliver, hevs, hmore]
      · rw [pushes_append, hpush, hp, forwarded_cons_some, List.map_append]
        by_cases h1 : 1 ≤ f.payload_len <;> simp [h1]

theorem forwarded_length_of_all (frames : List (Option rtp_frame))
    (hall : ∀ o ∈ frames, ∃ g, o = some g ∧ 1 ≤ g.payload_len) :
    (forwarded frames).length = frames.length := by
  induction frames with
  | nil => rfl
  | cons o rest ih =>
    obtain ⟨g, rfl, hg⟩ := hall o (List.mem_cons_self _ _)
    have hrest := ih (fun o ho => hall o (List.mem_cons_of_mem _ ho))
    rw [forwarded_cons_some, if_pos hg, List.length_append, hrest]
    simp
    omega

/-- Claim C6. With the sender stream created (`sndStream` non-null, which
`main` checks before it installs the hook): for a delivered frame that is
non-null with payload length at least one, the hook makes exactly one
`push_frame` call, on the sender stream, with that frame's payload pointer and
payload length and the flag `RTP_NO_H26X_SCL`; for a frame with an empty
payload and for a null frame it makes none. Hence over any sequence of
delivered frames the `push_frame` calls are those of the non-null, non-empty
frames, in delivery order, and `n` delivered non-empty NALUs give exactly `n`
calls. -/
theorem hook_forwards_frames (w : World) (past : List Event) (ctx : uvgrtpCtx) (stream : Nat)
    (f : rtp_frame) (frames : List (Option rtp_frame))
    (hsnd : ctx.sndStream = some stream) :
    (1 ≤ f.payload_len →
      ∃ evs, rtp_receive_hook w past ctx (some f) = some evs ∧
        pushes evs
          = [Event.push_frame stream f.payload f.payload_len rtp_flags_t.RTP_NO_H26X_SCL]) ∧
    (f.payload_len = 0 →
      ∃ evs, rtp_receive_hook w past ctx (some f) = some evs ∧ pushes evs = []) ∧
    (∃ evs, rtp_receive_hook w past ctx none = some evs ∧ pushes evs = []) ∧
    (∃ tr, deliver w ctx frames past = some tr ∧
      pushes tr = (forwarded frames).map
        (fun g => Event.push_frame stream g.payload g.payload_len rtp_flags_t.RTP_NO_H26X_SCL) ∧
      ((∀ o ∈ frames, ∃ g, o = some g ∧ 1 ≤ g.payload_len) →
        (pushes tr).length = frames.length)) := by
  obtain ⟨evs, hevs, hpush, _, _, _⟩ := hook_some_spec w past ctx stream f hsnd
  obtain ⟨tr, htr, hp⟩ := deliver_spec w ctx stream hsnd frames past
  refine ⟨?_, ?_, ⟨[], rfl, rfl⟩, ⟨tr, htr, hp, ?_⟩⟩
  · intro h1
    exact ⟨evs, hevs, by rw [hpush, if_pos h1]⟩
  · intro h0
    exact ⟨evs, hevs, by rw [hpush, if_neg (by omega)]⟩
  · intro hall
    rw [hp, List.length_map, forwarded_length_of_all frames hall]

/-- Witness for C6: a 40-byte frame, then a sequence of two non-empty frames. -/
theorem hook_forwards_frames_witness :
    sample_ctx.sndStream = some 3 ∧
    (∃ evs, rtp_receive_hook sample_world [] sample_ctx (some sample_frame) = some evs ∧
      pushes evs = [Event.push_frame 3 sample_frame.payload sample_frame.payload_len
        rtp_flags_t.RTP_NO_H26X_SCL]) ∧
    (∃ tr, deliver sample_world sample_ctx [some sample_frame, some ⟨8192, 3⟩] [] = some tr ∧
      pushes tr = (forwarded [some sample_frame, some ⟨8192, 3⟩]).map
        (fun g => Event.push_frame 3 g.payload g.payload_len rtp_flags_t.RTP_NO_H26X_SCL) ∧
      ((∀ o ∈ [some sample_frame, some (⟨8192, 3⟩ : rtp_frame)],
          ∃ g, o = some g ∧ 1 ≤ g.payload_len) →
        (pushes tr).length = [some sample_frame, some (⟨8192, 3⟩ : rtp_frame)].length)) :=
  ⟨rfl,
    (hook_forwards_frames sample_world [] sample_ctx 3 sample_frame
      [some sample_frame, some ⟨8192, 3⟩] rfl).1 (by decide),
    (hook_forwards_frames sample_world [] sample_ctx 3 sample_frame
      [some sample_frame, some ⟨8192, 3⟩] rfl).2.2.2⟩

/-- Claim C7. With the sender stream created: for every non-null frame
delivered to the hook, whatever its payload length and whatever `push_frame`
returns, the hook calls `dealloc_frame` exactly once, on that frame, as its
last action; for a null frame it performs no action at all. -/
theorem hook_deallocates_frame (w : World) (past : List Event) (ctx : uvgrtpCtx) (stream : Nat)
    (f : rtp_frame) (hsnd : ctx.sndStream = some stream) :
    (∃ evs, rtp_receive_hook w past ctx (some f) = some evs ∧
      deallocs evs = [f] ∧
      evs.getLast? = some (Event.dealloc_frame f) ∧
      evs.count (Event.dealloc_frame f) = 1) ∧
    (∃ evs, rtp_receive_hook w past ctx none = some evs ∧ deallocs evs = []) := by
  obtain ⟨evs, hevs, _, hd, hl, hc⟩ := hook_some_spec w past ctx stream f hsnd
  exact ⟨⟨evs, hevs, hd, hl, hc⟩, ⟨[], rfl, rfl⟩⟩

/-- Witness for C7: a 40-byte frame whose forwarding fails. -/
theorem hook_deallocates_frame_witness :
    sample_ctx.sndStream = some 3 ∧
    ((∃ evs, rtp_receive_hook failing_world [] sample_ctx (some sample_frame) = some evs ∧
      deallocs evs = [sample_frame] ∧
      evs.getLast? = some (Event.dealloc_frame sample_frame) ∧
      evs.count (Event.dealloc_frame sample_frame) = 1) ∧
    (∃ evs, rtp_receive_hook failing_world [] sample_ctx none = some evs ∧ deallocs evs = [])) :=
  ⟨rfl, hook_deallocates_frame failing_world [] sample_ctx 3 sample_frame rfl⟩

end proxy
